import Mathlib

/-!
Shallow embedding of `src/the-bermuda-triangle-game.ts`.

The Bermuda Triangle is a puzzle with a triangular board holding 16 small
triangular pieces; each piece has 3 colored dots (one per side) and the board
has 4 colored dots along each of its three sides.  The source file implements
a backtracking solver: `fitsThatMatchTheConstraints` tests a piece against the
colors already decided around a spot, `nextOpentSpot` finds the first open
cell in row-major order, `situationAtSpot` collects the colors a spot must
match, and `solvePuzzle` recursively enumerates complete arrangements.

Modelling conventions:
* TypeScript `Placement = {piece, rotation} | false` becomes `Option Placement`
  (`false` is `none`); array indexing that can yield `undefined` is modelled
  with `List.get?`.
* Code that can throw (`getSideOfPiece` on a missing placement, out-of-range
  indexing) is modelled in the `Option` monad: `none` is the thrown exception,
  which aborts the whole run.
* `solvePuzzle` prints each complete arrangement; the model returns the list
  of emitted arrangements in emission order (or `none` if the run throws).
  The general recursion of the source is embedded with an explicit fuel
  argument; `solvePuzzle` supplies fuel `countAvailable availableIndexes`,
  and `solvePuzzleGo_fuel_ge` below shows any larger fuel gives the same
  result, so the fuel never runs out.
-/

/-- Colors of the dots (`type Dot` in the source). -/
inductive Dot where
  | Red | Yellow | Green | Blue | White | Black
deriving DecidableEq, Repr

/-- Three colored dots per piece, listed in clockwise order. -/
abbrev Piece := List Dot

/-- Left board side, listed top to bottom (`[w, r, w, y]`). -/
def leftSide : List Dot := [.White, .Red, .White, .Yellow]

/-- Right board side, listed top to bottom (`[b, r, g, k]`). -/
def rightSide : List Dot := [.Blue, .Red, .Green, .Black]

/-- Bottom board side, listed left to right (`[g, g, w, g]`). -/
def bottomSide : List Dot := [.Green, .Green, .White, .Green]

/-- The sixteen pieces, exactly as listed in the source
(`r`=Red, `y`=Yellow, `g`=Green, `b`=Blue, `w`=White, `k`=Black). -/
def pieces : List Piece :=
  [[.Red, .Black, .Green],     -- 0
   [.Red, .White, .Yellow],
   [.Yellow, .White, .Green],
   [.Blue, .Black, .White],    -- 3
   [.Yellow, .Green, .Blue],
   [.Blue, .White, .White],
   [.Red, .Black, .Green],     -- 6
   [.Red, .Green, .Black],
   [.Green, .Black, .Black],
   [.Yellow, .Green, .Black],  -- 9
   [.Red, .Green, .White],
   [.Yellow, .White, .Green],
   [.Blue, .Black, .White],    -- 12
   [.Red, .Green, .Yellow],
   [.Blue, .Blue, .White],
   [.Yellow, .Black, .Blue]]   -- 15

/-- Spot position by row and column (`type Position`). -/
structure Position where
  row : Nat
  col : Nat
deriving DecidableEq, Repr

/-- The already decided dots around a piece; 1, 2 or 3 entries
(`type DotSituation`). -/
abbrev DotSituation := List Dot

/-- How a piece is placed: index into `pieces` plus a rotation 0-2.
The source's `Placement` also includes the alternative `false` (cell empty),
which the model renders as `Option Placement` with `none` for `false`. -/
structure Placement where
  piece : Nat
  rotation : Nat
deriving DecidableEq, Repr

/-- One board cell: `none` is the source's `false` (no piece yet). -/
abbrev Cell := Option Placement

/-- Piece arrangement in the puzzle: a list of rows of cells.  The real board
has rows of lengths 1, 3, 5, 7 but (as in the source, which also runs the
solver on boards cut down to 1-3 rows) the functions take any row list. -/
abbrev Arrangement := List (List Cell)

/-- Loop of `fitsThatMatchTheConstraints` over the required dots, carrying the
running dot index: `itFits` stays `true` unless some required dot differs from
`piece[(rotation + dotIndex) % 3]`. -/
def dotsAllMatch (piece : Piece) (rotation : Nat) : Nat → DotSituation → Bool
  | _, [] => true
  | dotIndex, dot :: rest =>
    (piece.get? ((rotation + dotIndex) % 3) == some dot) &&
      dotsAllMatch piece rotation (dotIndex + 1) rest

/-- Determine the orientations (fits) for the piece to match the dots given.
The source maps each rotation of `rotationsToTry = [0, 1, 2]` to a boolean
(`dotsAllMatch`) and then reduces the boolean list back to the list of indexes
that were `true`; that map-then-collect pipeline is exactly a `filter`. -/
def fitsThatMatchTheConstraints (dots : DotSituation) (piece : Piece) : List Nat :=
  [0, 1, 2].filter (fun rotation => dotsAllMatch piece rotation 0 dots)

/-- Index of the first empty cell of one row (inner loop of `nextOpentSpot`). -/
def firstNoneIdx : List Cell → Option Nat
  | [] => none
  | c :: rest =>
    if c.isNone then some 0 else (firstNoneIdx rest).map (· + 1)

/-- Row-by-row scan of `nextOpentSpot`, carrying the current row index. -/
def nextOpentSpotAux : Nat → List (List Cell) → Option Position
  | _, [] => none
  | row, r :: rest =>
    match firstNoneIdx r with
    | some col => some ⟨row, col⟩
    | none => nextOpentSpotAux (row + 1) rest

/-- Find the next open space to check for matching pieces: first cell equal to
`false` in row-major order, `undefined` (here `none`) if the board is full. -/
def nextOpentSpot (placements : Arrangement) : Option Position :=
  nextOpentSpotAux 0 placements

/-- Account for rotation and return the dot on the side given.  The source
throws `"Can't get piece side without a piece!"` when the placement is
`false`/`undefined`; the model returns `none` in that case (and when the piece
index or the resulting side index is out of range, where the source would
throw a `TypeError`). -/
def getSideOfPiece (sideIndex : Nat) (placement : Cell) : Option Dot :=
  match placement with
  | none => none
  | some pl => (pieces.get? pl.piece).bind (fun piece => piece.get? ((sideIndex + pl.rotation) % 3))

/-- Cell lookup `placements[row][col]`: out-of-range indexing yields
`undefined` in the source, which every consumer treats exactly like `false`
(both are falsy), so it collapses to `none` here as well. -/
def cellAt (placements : Arrangement) (row col : Nat) : Cell :=
  ((placements.get? row).bind (fun r => r.get? col)).join

/-- Determine the pieces that need to match at a spot.  Faithful rendering of
`situationAtSpot`: first the left constraint (board border in column 0,
otherwise the touching side of the piece to the left: its side 1 when our
column is odd, its side 2 when even), then the right/top constraint (right
board border in the last column, otherwise for odd columns the bottom, side 2,
of the piece above-left), and finally, for the single last cell `(3, 6)`,
the bottom border dot `bottomSide[3]`.  In the source `row - 1` is `-1` when
`row = 0`, making the above-left lookup `undefined`; the explicit `row = 0`
test below reproduces that. -/
def situationAtSpot (placements : Arrangement) (spot : Position) : Option DotSituation :=
  let row := spot.row
  let col := spot.col
  let colIsOdd := col % 2 != 0
  let first? : Option Dot :=
    if col = 0 then
      leftSide.get? row
    else
      getSideOfPiece (if colIsOdd then 1 else 2) (cellAt placements row (col - 1))
  match first?, placements.get? row with
  | some first, some rowList =>
    let second? : Option DotSituation :=
      if col + 1 = rowList.length then
        (rightSide.get? row).map (fun d => [first, d])
      else if colIsOdd then
        (getSideOfPiece 2
            (if row = 0 then none else cellAt placements (row - 1) (col - 1))).map
          (fun d => [first, d])
      else
        some [first]
    match second? with
    | some sit =>
      if row = 3 ∧ col = 6 then
        (bottomSide.get? 3).map (fun d => sit ++ [d])
      else
        some sit
    | none => none
  | _, _ => none

/-- Copy of an arrangement, row array by row array, cell by cell
(`cloneArrangement`).  In the pure model the copy is equal to the original;
the heap-level content of the source's clone is treated in the store model
further below. -/
def cloneArrangement (arrangement : Arrangement) : Arrangement :=
  arrangement.map (fun row => row.map (fun cell => cell))

/-- Effect of the assignment `newArrangement[row][col] = v` on the
arrangement value.  The search only ever writes to the in-range open spot
returned by `nextOpentSpot`; for an out-of-range row the source would throw,
and the model leaves the value unchanged. -/
def placeAt (arrangement : Arrangement) (row col : Nat) (v : Cell) : Arrangement :=
  match arrangement.get? row with
  | none => arrangement
  | some rowList => arrangement.set row (rowList.set col v)

/-- Availability map update: `availableIndexes.map (i2 => i2 === i ? false : i2)`. -/
def removeIndex (availableIndexes : List (Option Nat)) (i : Nat) : List (Option Nat) :=
  availableIndexes.map (fun i2 => if i2 = some i then none else i2)

/-- Number of still-available entries (non-`false` entries). -/
def countAvailable (availableIndexes : List (Option Nat)) : Nat :=
  availableIndexes.countP (fun i? => i?.isSome)

/-- The list of available piece indexes, `false` entries dropped. -/
def availableList (availableIndexes : List (Option Nat)) : List Nat :=
  availableIndexes.filterMap (fun i? => i?)

/-- Inner loop of `solvePuzzle`: one branch per fitting rotation `f` of the
chosen piece `i`.  Each branch places the piece into a fresh clone of the
arrangement together with a fresh availability map and recurses (`recur`);
the solutions emitted by the branches are concatenated in order, and an
exception (`none`) aborts the run. -/
def fitsLoop (recur : List (Option Nat) → Arrangement → Option (List Arrangement))
    (availableIndexes : List (Option Nat)) (placementsSoFar : Arrangement)
    (spot : Position) (i : Nat) : List Nat → Option (List Arrangement)
  | [] => some []
  | f :: fs =>
    match recur (removeIndex availableIndexes i)
        (placeAt (cloneArrangement placementsSoFar) spot.row spot.col (some ⟨i, f⟩)) with
    | none => none
    | some out1 =>
      match fitsLoop recur availableIndexes placementsSoFar spot i fs with
      | none => none
      | some out2 => some (out1 ++ out2)

/-- Outer loop of `solvePuzzle`: the `forEach` over the availability entries.
Entries that are `false` (`none`) are skipped; for an available index the
matching rotations are computed and tried in order by `fitsLoop`. -/
def availLoop (recur : List (Option Nat) → Arrangement → Option (List Arrangement))
    (availableIndexes : List (Option Nat)) (placementsSoFar : Arrangement)
    (spot : Position) (situation : DotSituation) :
    List (Option Nat) → Option (List Arrangement)
  | [] => some []
  | none :: rest =>
    availLoop recur availableIndexes placementsSoFar spot situation rest
  | some i :: rest =>
    match pieces.get? i with
    | none => none
    | some piece =>
      match fitsLoop recur availableIndexes placementsSoFar spot i
          (fitsThatMatchTheConstraints situation piece) with
      | none => none
      | some out1 =>
        match availLoop recur availableIndexes placementsSoFar spot situation rest with
        | none => none
        | some out2 => some (out1 ++ out2)

/-- One level of the recursive solver: the body of `solvePuzzle`, with the
recursive call abstracted as `recur`.  A full board (no open spot) emits the
arrangement (the source prints it); otherwise every available piece is tried
at every fitting rotation; a dead branch contributes nothing. -/
def solvePuzzleStep (recur : List (Option Nat) → Arrangement → Option (List Arrangement))
    (availableIndexes : List (Option Nat)) (placementsSoFar : Arrangement) :
    Option (List Arrangement) :=
  match nextOpentSpot placementsSoFar with
  | none => some [placementsSoFar]
  | some spot =>
    match situationAtSpot placementsSoFar spot with
    | none => none
    | some situation =>
      availLoop recur availableIndexes placementsSoFar spot situation availableIndexes

/-- The solver's recursion, embedded with an explicit fuel.  The fuel 0
fallback refuses to recurse; it is unreachable whenever the fuel is at least
`countAvailable availableIndexes`, because every recursive call strictly
decreases that count. -/
def solvePuzzleGo : Nat → List (Option Nat) → Arrangement → Option (List Arrangement)
  | 0 => solvePuzzleStep (fun _ _ => none)
  | fuel + 1 => solvePuzzleStep (solvePuzzleGo fuel)

/-- The recursive solver `solvePuzzle`, returning the emitted complete
arrangements in emission order (`none` if the run throws). -/
def solvePuzzle (availableIndexes : List (Option Nat)) (placementsSoFar : Arrangement) :
    Option (List Arrangement) :=
  solvePuzzleGo (countAvailable availableIndexes) availableIndexes placementsSoFar

/-- The fully empty 4-row board (`emptyPuzzle`). -/
def emptyPuzzle : Arrangement :=
  [[none],
   [none, none, none],
   [none, none, none, none, none],
   [none, none, none, none, none, none, none]]

/-- All 16 piece indexes available (`pieceIndexes`). -/
def initialAvailable : List (Option Nat) :=
  (List.range 16).map some

/-- Number of filled (non-`false`) cells of an arrangement. -/
def filledCount (a : Arrangement) : Nat :=
  (a.map (fun row => row.countP (fun c => c.isSome))).sum

/-- Shape test: the board has its four rows of lengths 1, 3, 5, 7. -/
def boardShape (a : Arrangement) : Bool :=
  a.map List.length == [1, 3, 5, 7]

/-- Row-major fill test: cell `(r, c)` (whose row-major index is `r * r + c`)
is filled exactly when that index is below `n`. -/
def filledUpTo (a : Arrangement) (n : Nat) : Bool :=
  (List.range 4).all (fun r => (List.range (2 * r + 1)).all (fun c =>
    (cellAt a r c).isSome == decide (r * r + c < n)))

/-- All available piece indexes are in range of the `pieces` table. -/
def availOK (avail : List (Option Nat)) : Bool :=
  (availableList avail).all (fun i => decide (i < 16))

/-- Piece indexes of the placements of one row. -/
def rowPieces (row : List Cell) : List Nat :=
  row.filterMap (fun c => c.map Placement.piece)

/-- Piece indexes of all placements of the arrangement, row-major. -/
def placedPieces (a : Arrangement) : List Nat :=
  (a.map rowPieces).join

/-- All placed piece indexes are in range of the `pieces` table. -/
def placedOK (a : Arrangement) : Bool :=
  (placedPieces a).all (fun i => decide (i < 16))

/-- The first open spot of a row-major filled board: after `n` placements the
open cells start at row-major index `n` (rows hold indexes `r*r` to
`r*r + 2*r`). -/
def spotOfCount (n : Nat) : Option Position :=
  if n < 1 then some ⟨0, n⟩
  else if n < 4 then some ⟨1, n - 1⟩
  else if n < 9 then some ⟨2, n - 4⟩
  else if n < 16 then some ⟨3, n - 9⟩
  else none

/-!
Store model for the frame claim.  In the source, `Arrangement` values are
JavaScript arrays of row arrays living on the heap; `cloneArrangement`
allocates fresh row arrays and the only mutation in the search,
`newArrangement[spot.row][spot.col] = {piece, rotation}`, targets a row of
that fresh clone.  To state that a call leaves its argument arrays unchanged,
the heap of row arrays is made explicit: a `Store` is the list of allocated
row arrays, addressed by position, and an arrangement reference is the list
of addresses of its rows.  The availability array is modelled by value: the
source never writes to an `availableIndexes` array (it only reads it and
builds a fresh one with `map`), so it has no mutable state to track.  The
second component of each result records whether the run threw; a thrown run
stops and leaves the heap as it stands.
-/

/-- The heap of allocated row arrays. -/
abbrev Store := List (List Cell)

/-- Read one row array (a dangling address reads as an empty array; the
search never produces one). -/
def derefRow (s : Store) (addr : Nat) : List Cell :=
  (s.get? addr).getD []

/-- Read a whole arrangement through its row addresses. -/
def derefArr (s : Store) (ref : List Nat) : Arrangement :=
  ref.map (derefRow s)

/-- Heap-level `cloneArrangement`: allocate one fresh row array per row,
copying the cells; the new reference lists the fresh addresses in order. -/
def cloneArrangementS (s : Store) (ref : List Nat) : Store × List Nat :=
  (s ++ derefArr s ref, (List.range ref.length).map (fun k => s.length + k))

/-- Heap-level cell write `rows[addr][col] = v`. -/
def writeCell (s : Store) (addr col : Nat) (v : Cell) : Store :=
  match s.get? addr with
  | none => s
  | some rowArr => s.set addr (rowArr.set col v)

/-- Heap-level inner loop over the fitting rotations (compare `fitsLoop`):
clone, write the placement into the clone's row, recurse; a throw stops the
run with the heap as it stands. -/
def fitsLoopS (recur : List (Option Nat) → Store → List Nat → Store × Bool)
    (availableIndexes : List (Option Nat)) (spot : Position) (i : Nat)
    (ref : List Nat) : List Nat → Store → Store × Bool
  | [], s => (s, false)
  | f :: fs, s =>
    let c := cloneArrangementS s ref
    match c.2.get? spot.row with
    | none => (c.1, true)
    | some addr =>
      match recur (removeIndex availableIndexes i)
          (writeCell c.1 addr spot.col (some ⟨i, f⟩)) c.2 with
      | (s3, true) => (s3, true)
      | (s3, false) => fitsLoopS recur availableIndexes spot i ref fs s3

/-- Heap-level outer loop over the availability entries (compare
`availLoop`). -/
def availLoopS (recur : List (Option Nat) → Store → List Nat → Store × Bool)
    (availableIndexes : List (Option Nat)) (spot : Position) (sit : DotSituation)
    (ref : List Nat) : List (Option Nat) → Store → Store × Bool
  | [], s => (s, false)
  | none :: rest, s => availLoopS recur availableIndexes spot sit ref rest s
  | some i :: rest, s =>
    match pieces.get? i with
    | none => (s, true)
    | some piece =>
      match fitsLoopS recur availableIndexes spot i ref
          (fitsThatMatchTheConstraints sit piece) s with
      | (s2, true) => (s2, true)
      | (s2, false) => availLoopS recur availableIndexes spot sit ref rest s2

/-- Heap-level solver level (compare `solvePuzzleStep`). -/
def solvePuzzleStepS (recur : List (Option Nat) → Store → List Nat → Store × Bool)
    (availableIndexes : List (Option Nat)) (s : Store) (ref : List Nat) : Store × Bool :=
  match nextOpentSpot (derefArr s ref) with
  | none => (s, false)
  | some spot =>
    match situationAtSpot (derefArr s ref) spot with
    | none => (s, true)
    | some situation => availLoopS recur availableIndexes spot situation ref availableIndexes s

/-- Heap-level solver recursion with fuel (compare `solvePuzzleGo`). -/
def solvePuzzleGoS : Nat → List (Option Nat) → Store → List Nat → Store × Bool
  | 0 => fun _ s _ => (s, true)
  | fuel + 1 => solvePuzzleStepS (solvePuzzleGoS fuel)

/-- Heap-level `solvePuzzle` entry point. -/
def solvePuzzleS (availableIndexes : List (Option Nat)) (s : Store) (ref : List Nat) :
    Store × Bool :=
  solvePuzzleGoS (countAvailable availableIndexes) availableIndexes s ref

/-- The heap grew and every already-allocated row array is unchanged. -/
def StorePreserved (s s' : Store) : Prop :=
  s.length ≤ s'.length ∧ ∀ addr, addr < s.length → s'.get? addr = s.get? addr

/-- Independent full-board checker for C1, written from the claim's words
rather than from the solver's incremental constraint construction: the
arrangement must be a completely filled 4-row board (row lengths 1, 3, 5, 7)
in which every touching edge pair carries the same color on both sides —
every piece-to-board-border adjacency (`leftSide` at column 0, `rightSide` at
each row's last column, and the bottom edges, side 2, of all four upward
cells of the last row against `bottomSide[0..3]`) and every piece-to-piece
adjacency (each cell's side 0 against the touching side of its left
neighbor, and side 1 of each downward cell against side 2 of the upward cell
above it). -/
def fullVerifier (a : Arrangement) : Bool :=
  (List.range 4).all (fun r =>
    (match a.get? r with
     | some rowList => decide (rowList.length = 2 * r + 1) && rowList.all (fun c => c.isSome)
     | none => false) &&
    decide (getSideOfPiece 0 (cellAt a r 0) = leftSide.get? r) &&
    decide (getSideOfPiece 1 (cellAt a r (2 * r)) = rightSide.get? r) &&
    (List.range (2 * r)).all (fun c =>
      decide (getSideOfPiece (if (c + 1) % 2 = 1 then 1 else 2) (cellAt a r c) =
        getSideOfPiece 0 (cellAt a r (c + 1)))) &&
    (decide (r = 0) ||
      (List.range (2 * r)).all (fun c =>
        decide (c % 2 = 0) ||
          decide (getSideOfPiece 1 (cellAt a r c) =
            getSideOfPiece 2 (cellAt a (r - 1) (c - 1)))))) &&
  (List.range 4).all (fun j =>
    decide (getSideOfPiece 2 (cellAt a 3 (2 * j)) = bottomSide.get? j))

/-- Complete arrangement number 1 in the solver emission order. -/
def solBoard1 : Arrangement :=
  [[some (Placement.mk 3 2)],
   [some (Placement.mk 13 0), some (Placement.mk 8 0), some (Placement.mk 7 2)],
   [some (Placement.mk 14 2), some (Placement.mk 4 2), some (Placement.mk 0 2), some (Placement.mk 10 0), some (Placement.mk 2 1)],
   [some (Placement.mk 11 0), some (Placement.mk 12 2), some (Placement.mk 9 2), some (Placement.mk 15 0), some (Placement.mk 5 0), some (Placement.mk 1 1), some (Placement.mk 6 0)]]

/-- Complete arrangement number 2 in the solver emission order. -/
def solBoard2 : Arrangement :=
  [[some (Placement.mk 3 2)],
   [some (Placement.mk 13 0), some (Placement.mk 8 0), some (Placement.mk 7 2)],
   [some (Placement.mk 14 2), some (Placement.mk 4 2), some (Placement.mk 0 2), some (Placement.mk 10 0), some (Placement.mk 11 1)],
   [some (Placement.mk 2 0), some (Placement.mk 12 2), some (Placement.mk 9 2), some (Placement.mk 15 0), some (Placement.mk 5 0), some (Placement.mk 1 1), some (Placement.mk 6 0)]]

/-- Complete arrangement number 3 in the solver emission order. -/
def solBoard3 : Arrangement :=
  [[some (Placement.mk 3 2)],
   [some (Placement.mk 13 0), some (Placement.mk 8 0), some (Placement.mk 7 2)],
   [some (Placement.mk 14 2), some (Placement.mk 4 2), some (Placement.mk 6 2), some (Placement.mk 10 0), some (Placement.mk 2 1)],
   [some (Placement.mk 11 0), some (Placement.mk 12 2), some (Placement.mk 9 2), some (Placement.mk 15 0), some (Placement.mk 5 0), some (Placement.mk 1 1), some (Placement.mk 0 0)]]

/-- Complete arrangement number 4 in the solver emission order. -/
def solBoard4 : Arrangement :=
  [[some (Placement.mk 3 2)],
   [some (Placement.mk 13 0), some (Placement.mk 8 0), some (Placement.mk 7 2)],
   [some (Placement.mk 14 2), some (Placement.mk 4 2), some (Placement.mk 6 2), some (Placement.mk 10 0), some (Placement.mk 11 1)],
   [some (Placement.mk 2 0), some (Placement.mk 12 2), some (Placement.mk 9 2), some (Placement.mk 15 0), some (Placement.mk 5 0), some (Placement.mk 1 1), some (Placement.mk 0 0)]]

/-- Complete arrangement number 5 in the solver emission order. -/
def solBoard5 : Arrangement :=
  [[some (Placement.mk 12 2)],
   [some (Placement.mk 13 0), some (Placement.mk 8 0), some (Placement.mk 7 2)],
   [some (Placement.mk 14 2), some (Placement.mk 4 2), some (Placement.mk 0 2), some (Placement.mk 10 0), some (Placement.mk 2 1)],
   [some (Placement.mk 11 0), some (Placement.mk 3 2), some (Placement.mk 9 2), some (Placement.mk 15 0), some (Placement.mk 5 0), some (Placement.mk 1 1), some (Placement.mk 6 0)]]

/-- Complete arrangement number 6 in the solver emission order. -/
def solBoard6 : Arrangement :=
  [[some (Placement.mk 12 2)],
   [some (Placement.mk 13 0), some (Placement.mk 8 0), some (Placement.mk 7 2)],
   [some (Placement.mk 14 2), some (Placement.mk 4 2), some (Placement.mk 0 2), some (Placement.mk 10 0), some (Placement.mk 11 1)],
   [some (Placement.mk 2 0), some (Placement.mk 3 2), some (Placement.mk 9 2), some (Placement.mk 15 0), some (Placement.mk 5 0), some (Placement.mk 1 1), some (Placement.mk 6 0)]]

/-- Complete arrangement number 7 in the solver emission order. -/
def solBoard7 : Arrangement :=
  [[some (Placement.mk 12 2)],
   [some (Placement.mk 13 0), some (Placement.mk 8 0), some (Placement.mk 7 2)],
   [some (Placement.mk 14 2), some (Placement.mk 4 2), some (Placement.mk 6 2), some (Placement.mk 10 0), some (Placement.mk 2 1)],
   [some (Placement.mk 11 0), some (Placement.mk 3 2), some (Placement.mk 9 2), some (Placement.mk 15 0), some (Placement.mk 5 0), some (Placement.mk 1 1), some (Placement.mk 0 0)]]

/-- Complete arrangement number 8 in the solver emission order. -/
def solBoard8 : Arrangement :=
  [[some (Placement.mk 12 2)],
   [some (Placement.mk 13 0), some (Placement.mk 8 0), some (Placement.mk 7 2)],
   [some (Placement.mk 14 2), some (Placement.mk 4 2), some (Placement.mk 6 2), some (Placement.mk 10 0), some (Placement.mk 11 1)],
   [some (Placement.mk 2 0), some (Placement.mk 3 2), some (Placement.mk 9 2), some (Placement.mk 15 0), some (Placement.mk 5 0), some (Placement.mk 1 1), some (Placement.mk 0 0)]]

/-- Availability map of search node nRootx3. -/
def availNRootx3 : List (Option Nat) := removeIndex initialAvailable 3

/-- Board of search node nRootx3. -/
def boardNRootx3 : Arrangement := placeAt (cloneArrangement emptyPuzzle) 0 0 (some (Placement.mk 3 2))

/-- Availability map of search node nRootx3x0. -/
def availNRootx3x0 : List (Option Nat) := removeIndex availNRootx3 0

/-- Board of search node nRootx3x0. -/
def boardNRootx3x0 : Arrangement := placeAt (cloneArrangement boardNRootx3) 1 0 (some (Placement.mk 0 0))

/-- Availability map of search node nRootx3x1. -/
def availNRootx3x1 : List (Option Nat) := removeIndex availNRootx3 1

/-- Board of search node nRootx3x1. -/
def boardNRootx3x1 : Arrangement := placeAt (cloneArrangement boardNRootx3) 1 0 (some (Placement.mk 1 0))

/-- Availability map of search node nRootx3x6. -/
def availNRootx3x6 : List (Option Nat) := removeIndex availNRootx3 6

/-- Board of search node nRootx3x6. -/
def boardNRootx3x6 : Arrangement := placeAt (cloneArrangement boardNRootx3) 1 0 (some (Placement.mk 6 0))

/-- Availability map of search node nRootx3x7. -/
def availNRootx3x7 : List (Option Nat) := removeIndex availNRootx3 7

/-- Board of search node nRootx3x7. -/
def boardNRootx3x7 : Arrangement := placeAt (cloneArrangement boardNRootx3) 1 0 (some (Placement.mk 7 0))

/-- Availability map of search node nRootx3x10. -/
def availNRootx3x10 : List (Option Nat) := removeIndex availNRootx3 10

/-- Board of search node nRootx3x10. -/
def boardNRootx3x10 : Arrangement := placeAt (cloneArrangement boardNRootx3) 1 0 (some (Placement.mk 10 0))

/-- Availability map of search node nRootx3x13. -/
def availNRootx3x13 : List (Option Nat) := removeIndex availNRootx3 13

/-- Board of search node nRootx3x13. -/
def boardNRootx3x13 : Arrangement := placeAt (cloneArrangement boardNRootx3) 1 0 (some (Placement.mk 13 0))

/-- Availability map of search node nRootx5. -/
def availNRootx5 : List (Option Nat) := removeIndex initialAvailable 5

/-- Board of search node nRootx5. -/
def boardNRootx5 : Arrangement := placeAt (cloneArrangement emptyPuzzle) 0 0 (some (Placement.mk 5 2))

/-- Availability map of search node nRootx12. -/
def availNRootx12 : List (Option Nat) := removeIndex initialAvailable 12

/-- Board of search node nRootx12. -/
def boardNRootx12 : Arrangement := placeAt (cloneArrangement emptyPuzzle) 0 0 (some (Placement.mk 12 2))

/-- Availability map of search node nRootx12x0. -/
def availNRootx12x0 : List (Option Nat) := removeIndex availNRootx12 0

/-- Board of search node nRootx12x0. -/
def boardNRootx12x0 : Arrangement := placeAt (cloneArrangement boardNRootx12) 1 0 (some (Placement.mk 0 0))

/-- Availability map of search node nRootx12x1. -/
def availNRootx12x1 : List (Option Nat) := removeIndex availNRootx12 1

/-- Board of search node nRootx12x1. -/
def boardNRootx12x1 : Arrangement := placeAt (cloneArrangement boardNRootx12) 1 0 (some (Placement.mk 1 0))

/-- Availability map of search node nRootx12x6. -/
def availNRootx12x6 : List (Option Nat) := removeIndex availNRootx12 6

/-- Board of search node nRootx12x6. -/
def boardNRootx12x6 : Arrangement := placeAt (cloneArrangement boardNRootx12) 1 0 (some (Placement.mk 6 0))

/-- Availability map of search node nRootx12x7. -/
def availNRootx12x7 : List (Option Nat) := removeIndex availNRootx12 7

/-- Board of search node nRootx12x7. -/
def boardNRootx12x7 : Arrangement := placeAt (cloneArrangement boardNRootx12) 1 0 (some (Placement.mk 7 0))

/-- Availability map of search node nRootx12x10. -/
def availNRootx12x10 : List (Option Nat) := removeIndex availNRootx12 10

/-- Board of search node nRootx12x10. -/
def boardNRootx12x10 : Arrangement := placeAt (cloneArrangement boardNRootx12) 1 0 (some (Placement.mk 10 0))

/-- Availability map of search node nRootx12x13. -/
def availNRootx12x13 : List (Option Nat) := removeIndex availNRootx12 13

/-- Board of search node nRootx12x13. -/
def boardNRootx12x13 : Arrangement := placeAt (cloneArrangement boardNRootx12) 1 0 (some (Placement.mk 13 0))

/-- Availability map of search node nRootx14. -/
def availNRootx14 : List (Option Nat) := removeIndex initialAvailable 14

/-- Board of search node nRootx14. -/
def boardNRootx14 : Arrangement := placeAt (cloneArrangement emptyPuzzle) 0 0 (some (Placement.mk 14 2))

/-- Availability map of search node nRootx14x0. -/
def availNRootx14x0 : List (Option Nat) := removeIndex availNRootx14 0

/-- Board of search node nRootx14x0. -/
def boardNRootx14x0 : Arrangement := placeAt (cloneArrangement boardNRootx14) 1 0 (some (Placement.mk 0 0))

/-- Availability map of search node nRootx14x1. -/
def availNRootx14x1 : List (Option Nat) := removeIndex availNRootx14 1

/-- Board of search node nRootx14x1. -/
def boardNRootx14x1 : Arrangement := placeAt (cloneArrangement boardNRootx14) 1 0 (some (Placement.mk 1 0))

/-- Availability map of search node nRootx14x1x3. -/
def availNRootx14x1x3 : List (Option Nat) := removeIndex availNRootx14x1 3

/-- Board of search node nRootx14x1x3. -/
def boardNRootx14x1x3 : Arrangement := placeAt (cloneArrangement boardNRootx14x1) 1 1 (some (Placement.mk 3 2))

/-- Availability map of search node nRootx14x1x5. -/
def availNRootx14x1x5 : List (Option Nat) := removeIndex availNRootx14x1 5

/-- Board of search node nRootx14x1x5. -/
def boardNRootx14x1x5 : Arrangement := placeAt (cloneArrangement boardNRootx14x1) 1 1 (some (Placement.mk 5 2))

/-- Availability map of search node nRootx14x1x12. -/
def availNRootx14x1x12 : List (Option Nat) := removeIndex availNRootx14x1 12

/-- Board of search node nRootx14x1x12. -/
def boardNRootx14x1x12 : Arrangement := placeAt (cloneArrangement boardNRootx14x1) 1 1 (some (Placement.mk 12 2))

/-- Availability map of search node nRootx14x6. -/
def availNRootx14x6 : List (Option Nat) := removeIndex availNRootx14 6

/-- Board of search node nRootx14x6. -/
def boardNRootx14x6 : Arrangement := placeAt (cloneArrangement boardNRootx14) 1 0 (some (Placement.mk 6 0))

/-- Availability map of search node nRootx14x7. -/
def availNRootx14x7 : List (Option Nat) := removeIndex availNRootx14 7

/-- Board of search node nRootx14x7. -/
def boardNRootx14x7 : Arrangement := placeAt (cloneArrangement boardNRootx14) 1 0 (some (Placement.mk 7 0))

/-- Availability map of search node nRootx14x10. -/
def availNRootx14x10 : List (Option Nat) := removeIndex availNRootx14 10

/-- Board of search node nRootx14x10. -/
def boardNRootx14x10 : Arrangement := placeAt (cloneArrangement boardNRootx14) 1 0 (some (Placement.mk 10 0))

/-- Availability map of search node nRootx14x13. -/
def availNRootx14x13 : List (Option Nat) := removeIndex availNRootx14 13

/-- Board of search node nRootx14x13. -/
def boardNRootx14x13 : Arrangement := placeAt (cloneArrangement boardNRootx14) 1 0 (some (Placement.mk 13 0))

/-!  Verification of the claims starts here. -/

/-- Unfolding lemma for the dot loop of `fitsThatMatchTheConstraints`:
`dotsAllMatch` starting at dot index `k` checks every remaining required dot
against the piece side `(rotation + dotIndex) % 3`. -/
theorem dotsAllMatch_iff (piece : Piece) (rotation k : Nat) (l : List Dot) :
    dotsAllMatch piece rotation k l = true ↔
      ∀ j, j < l.length → piece.get? ((rotation + (k + j)) % 3) = l.get? j := by
  induction l generalizing k with
  | nil => simp [dotsAllMatch]
  | cons d rest ih =>
    simp only [dotsAllMatch, Bool.and_eq_true, beq_iff_eq, ih]
    constructor
    · rintro ⟨h0, h1⟩ j hj
      cases j with
      | zero => simpa using h0
      | succ j' =>
        simp only [List.length_cons] at hj
        have h2 := h1 j' (Nat.lt_of_succ_lt_succ hj)
        rw [show k + (j' + 1) = k + 1 + j' from by omega]
        simpa using h2
    · intro h
      constructor
      · simpa using h 0 (by simp)
      · intro j hj
        have h2 := h (j + 1) (by simp only [List.length_cons]; omega)
        rw [show k + 1 + j = k + (j + 1) from by omega]
        simpa using h2

/-- The characterization claim for `fitsThatMatchTheConstraints`: a rotation
is returned exactly when it is one of 0, 1, 2 and every required dot matches
the piece side `(rotation + i) % 3`. -/
theorem fits_mem_iff (dots : DotSituation) (piece : Piece) (r : Nat) :
    r ∈ fitsThatMatchTheConstraints dots piece ↔
      (r < 3 ∧ ∀ i, i < dots.length → piece.get? ((r + i) % 3) = dots.get? i) := by
  unfold fitsThatMatchTheConstraints
  simp only [List.mem_filter, dotsAllMatch_iff, Nat.zero_add]
  constructor
  · rintro ⟨hm, h⟩
    refine ⟨?_, fun i hi => h i hi⟩
    rcases List.mem_cons.mp hm with rfl | hm
    · omega
    rcases List.mem_cons.mp hm with rfl | hm
    · omega
    rcases List.mem_cons.mp hm with rfl | hm
    · omega
    exact absurd hm (List.not_mem_nil r)
  · rintro ⟨hr, h⟩
    refine ⟨?_, fun j hj => h j hj⟩
    interval_cases r <;> simp

/-- C2: for every piece (a triple of colors) and every dot situation of
length 1, 2 or 3, `fitsThatMatchTheConstraints` returns exactly the set of
rotations r in 0..2 such that for every index i of the situation,
`piece[(r + i) % 3]` equals the situation's i-th color. -/
theorem fitsThatMatchTheConstraints_correct (dots : DotSituation) (piece : Piece)
    (hpiece : piece.length = 3) (hlo : 1 ≤ dots.length) (hhi : dots.length ≤ 3) :
    ∀ r, r ∈ fitsThatMatchTheConstraints dots piece ↔
      (r < 3 ∧ ∀ i, i < dots.length → piece.get? ((r + i) % 3) = dots.get? i) :=
  fun r => fits_mem_iff dots piece r

/-- Witness: concrete instance of C2.  Piece 3 is `[Blue, Black, White]`; for
the situation `[White, Blue]` the only fitting rotation is 2. -/
theorem fitsThatMatchTheConstraints_correct_witness :
    2 ∈ fitsThatMatchTheConstraints [.White, .Blue] [.Blue, .Black, .White] ∧
      ¬ 0 ∈ fitsThatMatchTheConstraints [.White, .Blue] [.Blue, .Black, .White] := by
  constructor
  · exact (fitsThatMatchTheConstraints_correct [.White, .Blue] [.Blue, .Black, .White]
      (by decide) (by decide) (by decide) 2).mpr (by decide)
  · intro hmem
    have h := (fitsThatMatchTheConstraints_correct [.White, .Blue] [.Blue, .Black, .White]
      (by decide) (by decide) (by decide) 0).mp hmem
    exact absurd (h.2 0 (by decide)) (by decide)

/-- C10: the rotation list returned by `fitsThatMatchTheConstraints` is a
sublist of `[0, 1, 2]`, strictly increasing, duplicate-free, and of length at
most three, so the solver tries the rotations of a piece in the order
0, 1, 2. -/
theorem fitsThatMatchTheConstraints_sorted (dots : DotSituation) (piece : Piece) :
    (fitsThatMatchTheConstraints dots piece).Sublist [0, 1, 2] ∧
      (fitsThatMatchTheConstraints dots piece).Pairwise (· < ·) ∧
      (fitsThatMatchTheConstraints dots piece).Nodup ∧
      (fitsThatMatchTheConstraints dots piece).length ≤ 3 := by
  have hsub : (fitsThatMatchTheConstraints dots piece).Sublist [0, 1, 2] :=
    List.filter_sublist _
  refine ⟨hsub, List.Pairwise.sublist hsub (by decide), ?_, ?_⟩
  · exact List.Nodup.sublist hsub (by decide)
  · simpa using hsub.length_le

/-- Removing an available index splits the available count: the removed
occurrences plus the remaining available entries account for all of them. -/
theorem countAvailable_removeIndex_add (l : List (Option Nat)) (i : Nat) :
    countAvailable (removeIndex l i) + l.count (some i) = countAvailable l := by
  induction l with
  | nil => rfl
  | cons x rest ih =>
    cases x with
    | none =>
      have e1 : removeIndex (none :: rest) i = none :: removeIndex rest i := by
        simp [removeIndex]
      have e2 : ∀ t : List (Option Nat), countAvailable (none :: t) = countAvailable t := by
        intro t
        simp [countAvailable, List.countP_cons]
      have e3 : (none :: rest).count (some i) = rest.count (some i) := by
        simp [List.count_cons]
      rw [e1, e2, e2, e3]
      exact ih
    | some j =>
      by_cases hj : j = i
      · subst hj
        have e1 : removeIndex (some j :: rest) j = none :: removeIndex rest j := by
          simp [removeIndex]
        have e2 : countAvailable (none :: removeIndex rest j) =
            countAvailable (removeIndex rest j) := by
          simp [countAvailable, List.countP_cons]
        have e3 : countAvailable (some j :: rest) = countAvailable rest + 1 := by
          simp [countAvailable, List.countP_cons]
        have e4 : (some j :: rest).count (some j) = rest.count (some j) + 1 := by
          simp [List.count_cons]
        rw [e1, e2, e3, e4]
        omega
      · have e1 : removeIndex (some j :: rest) i = some j :: removeIndex rest i := by
          simp only [removeIndex, List.map_cons]
          rw [if_neg (by simpa using hj)]
        have e2 : countAvailable (some j :: removeIndex rest i) =
            countAvailable (removeIndex rest i) + 1 := by
          simp [countAvailable, List.countP_cons]
        have e3 : countAvailable (some j :: rest) = countAvailable rest + 1 := by
          simp [countAvailable, List.countP_cons]
        have e4 : (some j :: rest).count (some i) = rest.count (some i) := by
          simp [List.count_cons, hj]
        rw [e1, e2, e3, e4]
        omega

/-- Removing an index never increases the available count. -/
theorem countAvailable_removeIndex_le (l : List (Option Nat)) (i : Nat) :
    countAvailable (removeIndex l i) ≤ countAvailable l := by
  have h := countAvailable_removeIndex_add l i
  omega

/-- Removing an index that is actually available strictly decreases the
available count. -/
theorem countAvailable_removeIndex_lt (l : List (Option Nat)) (i : Nat)
    (h : some i ∈ l) : countAvailable (removeIndex l i) < countAvailable l := by
  have h1 := countAvailable_removeIndex_add l i
  have h2 : 0 < l.count (some i) := List.count_pos_iff_mem.mpr h
  omega

/-- When the available index occurs exactly once, removing it decreases the
available count by exactly one. -/
theorem countAvailable_removeIndex_eq (l : List (Option Nat)) (i : Nat)
    (h : l.count (some i) = 1) : countAvailable (removeIndex l i) + 1 = countAvailable l := by
  have h1 := countAvailable_removeIndex_add l i
  omega

/-- Setting a cell that exists and is empty raises the filled count of that
row by one. -/
theorem countP_isSome_set (rl : List Cell) (c : Nat) (pl : Placement)
    (hc : rl.get? c = some none) :
    (rl.set c (some pl)).countP (fun x => x.isSome) =
      rl.countP (fun x => x.isSome) + 1 := by
  induction rl generalizing c with
  | nil => simp at hc
  | cons hd tl ih =>
    cases c with
    | zero =>
      simp only [List.get?] at hc
      cases hc
      simp [List.set, List.countP_cons]
    | succ c' =>
      simp only [List.get?] at hc
      simp only [List.set, List.countP_cons, ih c' hc]
      omega

/-- Replacing a row redistributes the filled count row-wise. -/
theorem filledCount_set (a : Arrangement) (r : Nat) (rl rl' : List Cell)
    (hr : a.get? r = some rl) :
    filledCount (a.set r rl') + rl.countP (fun x => x.isSome) =
      filledCount a + rl'.countP (fun x => x.isSome) := by
  induction a generalizing r with
  | nil => simp at hr
  | cons hd tl ih =>
    cases r with
    | zero =>
      simp only [List.get?] at hr
      cases hr
      simp only [List.set, filledCount, List.map_cons, List.sum_cons]
      omega
    | succ r' =>
      simp only [List.get?] at hr
      simp only [List.set, filledCount, List.map_cons, List.sum_cons] at *
      have := ih r' hr
      omega

/-- Placing a piece into an existing empty cell adds exactly one filled
cell. -/
theorem filledCount_placeAt (a : Arrangement) (r c : Nat) (rl : List Cell)
    (pl : Placement) (hr : a.get? r = some rl) (hc : rl.get? c = some none) :
    filledCount (placeAt a r c (some pl)) = filledCount a + 1 := by
  have hpe : placeAt a r c (some pl) = a.set r (rl.set c (some pl)) := by
    unfold placeAt
    rw [hr]
  rw [hpe]
  have h1 := filledCount_set a r rl (rl.set c (some pl)) hr
  have h2 := countP_isSome_set rl c pl hc
  omega

/-- Branch results of `fitsLoop` only depend on the recursion function's
values at the reduced availability map. -/
theorem fitsLoop_congr (R1 R2 : List (Option Nat) → Arrangement → Option (List Arrangement))
    (avail : List (Option Nat)) (a : Arrangement) (spot : Position) (i : Nat)
    (h : ∀ b, R1 (removeIndex avail i) b = R2 (removeIndex avail i) b) :
    ∀ fits, fitsLoop R1 avail a spot i fits = fitsLoop R2 avail a spot i fits := by
  intro fits
  induction fits with
  | nil => rfl
  | cons f fs ih =>
    simp only [fitsLoop]
    rw [h, ih]

/-- The availability loop only depends on the recursion function's values at
the reduced availability maps of its own entries. -/
theorem availLoop_congr (R1 R2 : List (Option Nat) → Arrangement → Option (List Arrangement))
    (avail : List (Option Nat)) (a : Arrangement) (spot : Position) (sit : DotSituation) :
    ∀ rest, (∀ i b, some i ∈ rest → R1 (removeIndex avail i) b = R2 (removeIndex avail i) b) →
      availLoop R1 avail a spot sit rest = availLoop R2 avail a spot sit rest := by
  intro rest
  induction rest with
  | nil => intro _; rfl
  | cons x rest ih =>
    intro h
    cases x with
    | none =>
      simpa [availLoop] using ih (fun i b hm => h i b (List.mem_cons_of_mem _ hm))
    | some i =>
      cases hp : pieces.get? i with
      | none => simp only [availLoop, hp]
      | some piece =>
        simp only [availLoop, hp]
        rw [fitsLoop_congr R1 R2 avail a spot i (fun b => h i b (List.mem_cons_self _ _)),
          ih (fun j b hm => h j b (List.mem_cons_of_mem _ hm))]

/-- One solver level only depends on the recursion function's values at the
reduced availability maps. -/
theorem solvePuzzleStep_congr (R1 R2 : List (Option Nat) → Arrangement → Option (List Arrangement))
    (avail : List (Option Nat)) (a : Arrangement)
    (h : ∀ i b, some i ∈ avail → R1 (removeIndex avail i) b = R2 (removeIndex avail i) b) :
    solvePuzzleStep R1 avail a = solvePuzzleStep R2 avail a := by
  unfold solvePuzzleStep
  cases nextOpentSpot a with
  | none => rfl
  | some spot =>
    show (match situationAtSpot a spot with
      | none => none
      | some sit => availLoop R1 avail a spot sit avail) =
      (match situationAtSpot a spot with
      | none => none
      | some sit => availLoop R2 avail a spot sit avail)
    cases situationAtSpot a spot with
    | none => rfl
    | some sit => exact availLoop_congr R1 R2 avail a spot sit avail h

/-- With no available entry at all, the solver never recurses, so the fuel is
irrelevant. -/
theorem solvePuzzleGo_zeroAvail (avail : List (Option Nat)) (a : Arrangement)
    (hz : countAvailable avail = 0) (f1 f2 : Nat) :
    solvePuzzleGo f1 avail a = solvePuzzleGo f2 avail a := by
  have hmem : ∀ i : Nat, some i ∉ avail := by
    intro i hi
    have h2 := List.countP_eq_zero.mp hz _ hi
    simp at h2
  have key : ∀ f, solvePuzzleGo f avail a = solvePuzzleStep (fun _ _ => none) avail a := by
    intro f
    cases f with
    | zero => rfl
    | succ k =>
      exact solvePuzzleStep_congr _ _ avail a (fun i b hi => absurd hi (hmem i))
  rw [key f1, key f2]

/-- Any two fuels at least the available count give the same solver result:
the recursion bottoms out before the fuel does. -/
theorem solvePuzzleGo_fuel_ge : ∀ (n : Nat) (avail : List (Option Nat)) (a : Arrangement)
    (f1 f2 : Nat), countAvailable avail ≤ n → countAvailable avail ≤ f1 →
    countAvailable avail ≤ f2 → solvePuzzleGo f1 avail a = solvePuzzleGo f2 avail a := by
  intro n
  induction n with
  | zero =>
    intro avail a f1 f2 hn _ _
    exact solvePuzzleGo_zeroAvail avail a (Nat.le_zero.mp hn) f1 f2
  | succ n ih =>
    intro avail a f1 f2 hn h1 h2
    by_cases hz : countAvailable avail = 0
    · exact solvePuzzleGo_zeroAvail avail a hz f1 f2
    · have hpos : 1 ≤ countAvailable avail := Nat.pos_of_ne_zero hz
      obtain ⟨f1', rfl⟩ : ∃ k, f1 = k + 1 := ⟨f1 - 1, by omega⟩
      obtain ⟨f2', rfl⟩ : ∃ k, f2 = k + 1 := ⟨f2 - 1, by omega⟩
      show solvePuzzleStep (solvePuzzleGo f1') avail a =
        solvePuzzleStep (solvePuzzleGo f2') avail a
      apply solvePuzzleStep_congr
      intro i b hi
      have hlt := countAvailable_removeIndex_lt avail i hi
      exact ih (removeIndex avail i) b f1' f2' (by omega) (by omega) (by omega)

/-- Counterexample to C8 as stated: with the type-correct availability list
`[3, 3]` (the same piece index twice), the recursive call spawned by placing
piece 3 receives an availability count of 0, not 1: the count drops by two,
because the `map` used to mark the piece unavailable blanks every occurrence
of the chosen index.  The solver does reach that recursive call: it emits the
completed one-cell board twice, once per duplicate entry. -/
theorem solvePuzzle_count_drop_by_two :
    countAvailable [some 3, some 3] = 2 ∧
      countAvailable (removeIndex [some 3, some 3] 3) = 0 ∧
      solvePuzzle [some 3, some 3] [[none]] =
        some [[[some ⟨3, 2⟩]], [[some ⟨3, 2⟩]]] := by
  refine ⟨rfl, rfl, rfl⟩

/-- C8 (amended): `solvePuzzle` terminates on every input.  Each recursive
call strictly decreases the count of non-`false` entries in
`availableIndexes` — by exactly one whenever the chosen index occurs exactly
once, as in every run from the initial call — and strictly increases the
number of filled cells by one; the recursion depth is bounded by the
available-piece count (16 initially), which the explicit fuel witnesses:
fuel beyond `countAvailable` never changes the result. -/
theorem solvePuzzle_terminates :
    (∀ (avail : List (Option Nat)) (i : Nat), some i ∈ avail →
        countAvailable (removeIndex avail i) < countAvailable avail) ∧
      (∀ (avail : List (Option Nat)) (i : Nat), avail.count (some i) = 1 →
        countAvailable (removeIndex avail i) + 1 = countAvailable avail) ∧
      (∀ (a : Arrangement) (r c : Nat) (rl : List Cell) (pl : Placement),
        a.get? r = some rl → rl.get? c = some none →
        filledCount (placeAt a r c (some pl)) = filledCount a + 1) ∧
      (∀ (avail : List (Option Nat)) (a : Arrangement) (extra : Nat),
        solvePuzzleGo (countAvailable avail + extra) avail a = solvePuzzle avail a) ∧
      countAvailable initialAvailable = 16 := by
  refine ⟨countAvailable_removeIndex_lt, countAvailable_removeIndex_eq,
    filledCount_placeAt, ?_, rfl⟩
  intro avail a extra
  exact solvePuzzleGo_fuel_ge (countAvailable avail) avail a _ _
    (Nat.le_refl _) (Nat.le_add_right _ _) (Nat.le_refl _)

/-- Witness for C8 at concrete inputs: removing the uniquely available index
0 from `[0, 1]` drops the count from 2 to 1; placing a piece into the empty
one-cell board raises the filled count from 0 to 1; and five units of extra
fuel leave the solver's result on `[some 3]` unchanged. -/
theorem solvePuzzle_terminates_witness :
    countAvailable (removeIndex [some 0, some 1] 0) < countAvailable [some 0, some 1] ∧
      countAvailable (removeIndex [some 0, some 1] 0) + 1 = countAvailable [some 0, some 1] ∧
      filledCount (placeAt [[none]] 0 0 (some ⟨3, 2⟩)) = filledCount [[none]] + 1 ∧
      solvePuzzleGo (countAvailable [some 3] + 5) [some 3] [[none]] =
        solvePuzzle [some 3] [[none]] :=
  ⟨solvePuzzle_terminates.1 [some 0, some 1] 0 (by decide),
   solvePuzzle_terminates.2.1 [some 0, some 1] 0 (by decide),
   solvePuzzle_terminates.2.2.1 [[none]] 0 0 [none] ⟨3, 2⟩ (by decide) (by decide),
   solvePuzzle_terminates.2.2.2.1 [some 3] [[none]] 5⟩

/-- C9: the solver is deterministic — two runs on equal inputs emit the
identical sequence of complete arrangements in the identical order, since
cell visitation (row-major via `nextOpentSpot`), piece iteration (availability
list order) and rotation iteration (0, 1, 2) are all fixed. -/
theorem solvePuzzle_deterministic (av1 av2 : List (Option Nat)) (a1 a2 : Arrangement)
    (h1 : av1 = av2) (h2 : a1 = a2) : solvePuzzle av1 a1 = solvePuzzle av2 a2 := by
  rw [h1, h2]

/-- Witness for C9 at the initial input of the full puzzle. -/
theorem solvePuzzle_deterministic_witness :
    solvePuzzle initialAvailable emptyPuzzle = solvePuzzle initialAvailable emptyPuzzle :=
  solvePuzzle_deterministic initialAvailable initialAvailable emptyPuzzle emptyPuzzle rfl rfl

/-- Every piece of the fixed table has exactly three dots. -/
theorem pieces_all_length_three : ∀ pc ∈ pieces, pc.length = 3 := by decide

/-- Reading any side of a placement whose piece index is in range always
yields a dot (the throw in `getSideOfPiece` needs a missing placement). -/
theorem getSideOfPiece_isSome (s : Nat) (pl : Placement) (h : pl.piece < pieces.length) :
    ∃ d, getSideOfPiece s (some pl) = some d := by
  show ∃ d, (pieces.get? pl.piece).bind (fun pc => pc.get? ((s + pl.rotation) % 3)) = some d
  obtain ⟨pc, hpc⟩ : ∃ pc, pieces.get? pl.piece = some pc := ⟨_, List.get?_eq_get h⟩
  rw [hpc]
  have hmem : pc ∈ pieces := List.get?_mem hpc
  have hlen : pc.length = 3 := pieces_all_length_three pc hmem
  have hidx : (s + pl.rotation) % 3 < pc.length := by
    rw [hlen]
    exact Nat.mod_lt _ (by decide)
  exact ⟨_, by rw [Option.some_bind]; exact List.get?_eq_get hidx⟩

/-- Unfolding of `situationAtSpot` once the left constraint and the row list
are known. -/
theorem situationAtSpot_eq (p : Arrangement) (row col : Nat) (f : Dot) (rowList : List Cell)
    (hf : (if col = 0 then leftSide.get? row
        else getSideOfPiece (if col % 2 != 0 then 1 else 2) (cellAt p row (col - 1))) = some f)
    (hrow : p.get? row = some rowList) :
    situationAtSpot p ⟨row, col⟩ =
      (match (if col + 1 = rowList.length then (rightSide.get? row).map (fun d => [f, d])
        else if col % 2 != 0 then
          (getSideOfPiece 2 (if row = 0 then none else cellAt p (row - 1) (col - 1))).map
            (fun d => [f, d])
        else some [f] : Option DotSituation) with
      | some sit =>
        if row = 3 ∧ col = 6 then (bottomSide.get? 3).map (fun d => sit ++ [d])
        else some sit
      | none => none) := by
  simp only [situationAtSpot]
  rw [hf, hrow]

/-- C3: contents of the first two constraint entries.  For every cell of the
4-row board whose left neighbor (and, at odd columns, whose above-left
neighbor) is placed, `situationAtSpot` returns a situation whose first entry
is the left board dot in column 0 and otherwise the left neighbor's edge at
index 1 (odd column) or 2 (even column) adjusted by that neighbor's rotation,
and whose second entry is the right board dot in the last column, otherwise
(odd columns) edge index 2 of the neighbor at `(row-1, col-1)`, and absent for
an interior even column. -/
theorem situationAtSpot_entries (p : Arrangement) (row col : Nat) (rowList : List Cell)
    (hrow : p.get? row = some rowList) (hlen : rowList.length = 2 * row + 1)
    (hr4 : row < 4) (hcol : col < 2 * row + 1)
    (hleft : col ≠ 0 → ∃ pl, cellAt p row (col - 1) = some pl ∧ pl.piece < pieces.length)
    (habove : col % 2 = 1 → ∃ pl, cellAt p (row - 1) (col - 1) = some pl ∧
      pl.piece < pieces.length) :
    ∃ s, situationAtSpot p ⟨row, col⟩ = some s ∧
      s.get? 0 = (if col = 0 then leftSide.get? row
        else getSideOfPiece (if col % 2 = 1 then 1 else 2) (cellAt p row (col - 1))) ∧
      s.get? 1 = (if col = 2 * row then rightSide.get? row
        else if col % 2 = 1 then getSideOfPiece 2 (cellAt p (row - 1) (col - 1))
        else none) := by
  have hL : ∃ L, leftSide.get? row = some L :=
    ⟨_, List.get?_eq_get (show row < leftSide.length from hr4)⟩
  have hR : ∃ R, rightSide.get? row = some R :=
    ⟨_, List.get?_eq_get (show row < rightSide.length from hr4)⟩
  obtain ⟨f, hf⟩ : ∃ f, (if col = 0 then leftSide.get? row
      else getSideOfPiece (if col % 2 != 0 then 1 else 2) (cellAt p row (col - 1))) = some f := by
    by_cases h0 : col = 0
    · obtain ⟨L, hL⟩ := hL
      exact ⟨L, by rw [if_pos h0, hL]⟩
    · obtain ⟨pl, hpl, hplt⟩ := hleft h0
      obtain ⟨d, hd⟩ := getSideOfPiece_isSome (if col % 2 != 0 then 1 else 2) pl hplt
      exact ⟨d, by rw [if_neg h0, hpl, hd]⟩
  have hstep := situationAtSpot_eq p row col f rowList hf hrow
  -- the first entry always equals the claimed value
  have hfirst : (if col = 0 then leftSide.get? row
      else getSideOfPiece (if col % 2 = 1 then 1 else 2) (cellAt p row (col - 1))) = some f := by
    rw [show (if col % 2 = 1 then 1 else 2) = (if col % 2 != 0 then 1 else 2) from by
      rcases Nat.mod_two_eq_zero_or_one col with h | h <;> simp [h]]
    exact hf
  by_cases hlast : col = 2 * row
  · -- last column of the row: second entry is the right border dot
    obtain ⟨R, hR2⟩ := hR
    have hcond : col + 1 = rowList.length := by omega
    rw [if_pos hcond, hR2, Option.map_some'] at hstep
    replace hstep : situationAtSpot p ⟨row, col⟩ =
        (if row = 3 ∧ col = 6 then
          Option.map (fun d => [f, R] ++ [d]) (bottomSide.get? 3)
        else some [f, R]) := hstep
    by_cases h36 : row = 3 ∧ col = 6
    · rw [if_pos h36, show bottomSide.get? 3 = some Dot.Green from rfl,
        Option.map_some'] at hstep
      refine ⟨[f, R] ++ [Dot.Green], hstep, ?_, ?_⟩
      · rw [hfirst]; rfl
      · rw [if_pos hlast, hR2]; rfl
    · rw [if_neg h36] at hstep
      refine ⟨[f, R], hstep, ?_, ?_⟩
      · rw [hfirst]; rfl
      · rw [if_pos hlast, hR2]; rfl
  · -- interior column
    have hcond : ¬ (col + 1 = rowList.length) := by omega
    rw [if_neg hcond] at hstep
    by_cases hodd : col % 2 = 1
    · -- odd interior column: second entry from the piece above-left
      have hoddb : (col % 2 != 0) = true := by simp [hodd]
      have hrow0 : row ≠ 0 := by omega
      obtain ⟨pl2, hpl2, hpl2t⟩ := habove hodd
      obtain ⟨d2, hd2⟩ := getSideOfPiece_isSome 2 pl2 hpl2t
      rw [hoddb, if_pos rfl, if_neg hrow0, hpl2, hd2, Option.map_some'] at hstep
      replace hstep : situationAtSpot p ⟨row, col⟩ =
          (if row = 3 ∧ col = 6 then
            Option.map (fun d => [f, d2] ++ [d]) (bottomSide.get? 3)
          else some [f, d2]) := hstep
      rw [if_neg (by rintro ⟨h3, h6⟩; omega)] at hstep
      refine ⟨[f, d2], hstep, ?_, ?_⟩
      · rw [hfirst]; rfl
      · rw [if_neg hlast, if_pos hodd, hpl2, hd2]; rfl
    · -- even interior column: no second entry
      have heven : col % 2 = 0 := by omega
      have hoddb : (col % 2 != 0) = false := by simp [heven]
      rw [hoddb, if_neg (by simp)] at hstep
      replace hstep : situationAtSpot p ⟨row, col⟩ =
          (if row = 3 ∧ col = 6 then
            Option.map (fun d => [f] ++ [d]) (bottomSide.get? 3)
          else some [f]) := hstep
      rw [if_neg (by rintro ⟨h3, h6⟩; omega)] at hstep
      refine ⟨[f], hstep, ?_, ?_⟩
      · rw [hfirst]; rfl
      · rw [if_neg hlast, if_neg hodd]; rfl

/-- Stepping lemma: a `false` availability entry is skipped. -/
theorem availLoop_none_step (R : List (Option Nat) → Arrangement → Option (List Arrangement))
    (A : List (Option Nat)) (a : Arrangement) (spot : Position) (sit : DotSituation)
    (rest : List (Option Nat)) :
    availLoop R A a spot sit (none :: rest) = availLoop R A a spot sit rest := rfl

/-- Stepping lemma: an available piece with no fitting rotation contributes
nothing. -/
theorem availLoop_skip_step (R : List (Option Nat) → Arrangement → Option (List Arrangement))
    (A : List (Option Nat)) (a : Arrangement) (spot : Position) (sit : DotSituation)
    (i : Nat) (piece : Piece) (rest : List (Option Nat))
    (hp : pieces.get? i = some piece)
    (hfit : fitsThatMatchTheConstraints sit piece = []) :
    availLoop R A a spot sit (some i :: rest) = availLoop R A a spot sit rest := by
  simp only [availLoop, hp, hfit, fitsLoop]
  cases availLoop R A a spot sit rest <;> rfl

/-- Stepping lemma: an available piece with exactly one fitting rotation
contributes the solutions of that single branch. -/
theorem availLoop_branch_step (R : List (Option Nat) → Arrangement → Option (List Arrangement))
    (A : List (Option Nat)) (a : Arrangement) (spot : Position) (sit : DotSituation)
    (i : Nat) (piece : Piece) (f : Nat) (rest : List (Option Nat))
    (out1 out2 : List Arrangement)
    (hp : pieces.get? i = some piece)
    (hfit : fitsThatMatchTheConstraints sit piece = [f])
    (hrec : R (removeIndex A i)
        (placeAt (cloneArrangement a) spot.row spot.col (some ⟨i, f⟩)) = some out1)
    (hrest : availLoop R A a spot sit rest = some out2) :
    availLoop R A a spot sit (some i :: rest) = some (out1 ++ out2) := by
  simp only [availLoop, hp, hfit, fitsLoop, hrec, hrest, List.append_nil]

/-- One solver level as an `availLoop` run, once the open spot and its
situation are known. -/
theorem solvePuzzleStep_eq (R : List (Option Nat) → Arrangement → Option (List Arrangement))
    (A : List (Option Nat)) (a : Arrangement) (spot : Position) (sit : DotSituation)
    (hspot : nextOpentSpot a = some spot)
    (hsit : situationAtSpot a spot = some sit) :
    solvePuzzleStep R A a = availLoop R A a spot sit A := by
  simp only [solvePuzzleStep, hspot, hsit]

/-- Witness for C3 at the concrete partial board `[[3.2], [13.0, _, _]]` and
spot (1, 1): the first entry reads side 1 of the left neighbor, the second
reads side 2 of the piece above-left. -/
theorem situationAtSpot_entries_witness :
    ∃ s, situationAtSpot [[some ⟨3, 2⟩], [some ⟨13, 0⟩, none, none]] ⟨1, 1⟩ = some s ∧
      s.get? 0 = (if 1 = 0 then leftSide.get? 1
        else getSideOfPiece (if 1 % 2 = 1 then 1 else 2)
          (cellAt [[some ⟨3, 2⟩], [some ⟨13, 0⟩, none, none]] 1 0)) ∧
      s.get? 1 = (if 1 = 2 * 1 then rightSide.get? 1
        else if 1 % 2 = 1 then
          getSideOfPiece 2 (cellAt [[some ⟨3, 2⟩], [some ⟨13, 0⟩, none, none]] 0 0)
        else none) :=
  situationAtSpot_entries [[some ⟨3, 2⟩], [some ⟨13, 0⟩, none, none]] 1 1
    [some ⟨13, 0⟩, none, none] rfl rfl (by decide) (by decide)
    (fun _ => ⟨⟨13, 0⟩, rfl, by decide⟩) (fun _ => ⟨⟨3, 2⟩, rfl, by decide⟩)

/-- C4: on the 4-row board every defined situation has 1, 2 or 3 entries, it
has 3 entries exactly at the last cell (3, 6), and there the third entry is
the bottom border dot `bottomSide[3]`. -/
theorem situationAtSpot_length (p : Arrangement) (row col : Nat) (s : DotSituation)
    (hshape : p.map List.length = [1, 3, 5, 7])
    (hrow4 : row < 4) (hcol : col < 2 * row + 1)
    (hs : situationAtSpot p ⟨row, col⟩ = some s) :
    (1 ≤ s.length ∧ s.length ≤ 3) ∧ (s.length = 3 ↔ row = 3 ∧ col = 6) ∧
      (row = 3 ∧ col = 6 → s.get? 2 = bottomSide.get? 3) := by
  have hmap : (p.map List.length).get? row = some (2 * row + 1) := by
    rw [hshape]
    interval_cases row <;> rfl
  rw [List.get?_map] at hmap
  cases hrowq : p.get? row with
  | none =>
    rw [hrowq] at hmap
    cases hmap
  | some rowList =>
  rw [hrowq] at hmap
  have hlen : rowList.length = 2 * row + 1 := by simpa using hmap
  cases hfq : (if col = 0 then leftSide.get? row
      else getSideOfPiece (if col % 2 != 0 then 1 else 2) (cellAt p row (col - 1))) with
  | none =>
    have hnone : situationAtSpot p ⟨row, col⟩ = none := by
      simp only [situationAtSpot]
      rw [hfq]
    rw [hnone] at hs
    simp at hs
  | some f =>
  have hstep := situationAtSpot_eq p row col f rowList hfq hrowq
  by_cases hlastc : col + 1 = rowList.length
  · rw [if_pos hlastc] at hstep
    obtain ⟨R, hR2⟩ : ∃ R, rightSide.get? row = some R :=
      ⟨_, List.get?_eq_get (show row < rightSide.length from hrow4)⟩
    rw [hR2, Option.map_some'] at hstep
    replace hstep : situationAtSpot p ⟨row, col⟩ =
        (if row = 3 ∧ col = 6 then
          Option.map (fun d => [f, R] ++ [d]) (bottomSide.get? 3)
        else some [f, R]) := hstep
    by_cases h36 : row = 3 ∧ col = 6
    · rw [if_pos h36, show bottomSide.get? 3 = some Dot.Green from rfl,
        Option.map_some'] at hstep
      rw [hstep] at hs
      obtain rfl := Option.some.inj hs
      exact ⟨⟨by simp, by simp⟩, ⟨fun _ => h36, fun _ => by simp⟩, fun _ => rfl⟩
    · rw [if_neg h36] at hstep
      rw [hstep] at hs
      obtain rfl := Option.some.inj hs
      exact ⟨⟨by simp, by simp⟩, ⟨by simp, fun h => absurd h h36⟩, fun h => absurd h h36⟩
  · rw [if_neg hlastc] at hstep
    have h36 : ¬ (row = 3 ∧ col = 6) := by
      rintro ⟨h3, h6⟩
      omega
    by_cases hoddb : (col % 2 != 0) = true
    · rw [if_pos hoddb] at hstep
      cases hdq : getSideOfPiece 2 (if row = 0 then none else cellAt p (row - 1) (col - 1)) with
      | none =>
        rw [hdq, Option.map_none'] at hstep
        replace hstep : situationAtSpot p ⟨row, col⟩ = none := hstep
        rw [hstep] at hs
        simp at hs
      | some d2 =>
        rw [hdq, Option.map_some'] at hstep
        replace hstep : situationAtSpot p ⟨row, col⟩ =
            (if row = 3 ∧ col = 6 then
              Option.map (fun d => [f, d2] ++ [d]) (bottomSide.get? 3)
            else some [f, d2]) := hstep
        rw [if_neg h36] at hstep
        rw [hstep] at hs
        obtain rfl := Option.some.inj hs
        exact ⟨⟨by simp, by simp⟩, ⟨by simp, fun h => absurd h h36⟩, fun h => absurd h h36⟩
    · rw [if_neg hoddb] at hstep
      replace hstep : situationAtSpot p ⟨row, col⟩ =
          (if row = 3 ∧ col = 6 then
            Option.map (fun d => [f] ++ [d]) (bottomSide.get? 3)
          else some [f]) := hstep
      rw [if_neg h36] at hstep
      rw [hstep] at hs
      obtain rfl := Option.some.inj hs
      exact ⟨⟨by simp, by simp⟩, ⟨by simp, fun h => absurd h h36⟩, fun h => absurd h h36⟩

/-- Witness for C4 at the last cell (3, 6) of a fully placed board: the
situation has three entries and its third entry is `bottomSide[3]`. -/
theorem situationAtSpot_length_witness :
    (1 ≤ ([Dot.Red, Dot.Black, Dot.Green] : DotSituation).length ∧
        ([Dot.Red, Dot.Black, Dot.Green] : DotSituation).length ≤ 3) ∧
      (([Dot.Red, Dot.Black, Dot.Green] : DotSituation).length = 3 ↔ (3 : Nat) = 3 ∧ (6 : Nat) = 6) ∧
      ((3 : Nat) = 3 ∧ (6 : Nat) = 6 →
        ([Dot.Red, Dot.Black, Dot.Green] : DotSituation).get? 2 = bottomSide.get? 3) :=
  situationAtSpot_length
    [[some ⟨3, 2⟩],
     [some ⟨13, 0⟩, some ⟨8, 0⟩, some ⟨7, 2⟩],
     [some ⟨14, 2⟩, some ⟨4, 2⟩, some ⟨0, 2⟩, some ⟨10, 0⟩, some ⟨2, 1⟩],
     [some ⟨11, 0⟩, some ⟨12, 2⟩, some ⟨9, 2⟩, some ⟨15, 0⟩, some ⟨5, 0⟩, some ⟨1, 1⟩, some ⟨6, 0⟩]]
    3 6 [Dot.Red, Dot.Black, Dot.Green] (by decide) (by decide) (by decide) (by decide)

/-- Unfolding of `boardShape` to the row list. -/
theorem boardShape_destruct (a : Arrangement) (h : boardShape a = true) :
    ∃ r0 r1 r2 r3, a = [r0, r1, r2, r3] ∧ r0.length = 1 ∧ r1.length = 3 ∧
      r2.length = 5 ∧ r3.length = 7 := by
  have h' : a.map List.length = [1, 3, 5, 7] := by simpa [boardShape] using h
  cases a with
  | nil => simp at h'
  | cons x0 t0 =>
  cases t0 with
  | nil => simp at h'
  | cons x1 t1 =>
  cases t1 with
  | nil => simp at h'
  | cons x2 t2 =>
  cases t2 with
  | nil => simp at h'
  | cons x3 t3 =>
  cases t3 with
  | cons x4 t4 => simp at h'
  | nil =>
  simp only [List.map_cons, List.map_nil, List.cons.injEq, and_true] at h'
  exact ⟨x0, x1, x2, x3, rfl, h'.1, h'.2.1, h'.2.2.1, h'.2.2.2⟩

/-- Unfolding of `filledUpTo` to a per-cell statement. -/
theorem filledUpTo_iff (a : Arrangement) (n : Nat) :
    filledUpTo a n = true ↔
      ∀ r, r < 4 → ∀ c, c < 2 * r + 1 →
        (cellAt a r c).isSome = decide (r * r + c < n) := by
  simp [filledUpTo, List.all_eq_true, List.mem_range, beq_iff_eq]

/-- Unfolding of `availOK`. -/
theorem availOK_iff (avail : List (Option Nat)) :
    availOK avail = true ↔ ∀ i, some i ∈ avail → i < 16 := by
  simp only [availOK, availableList, List.all_eq_true, List.mem_filterMap,
    decide_eq_true_eq]
  constructor
  · intro h i hm
    exact h i ⟨some i, hm, rfl⟩
  · rintro h i ⟨x, hx, hid⟩
    cases x with
    | none => cases hid
    | some j =>
      cases hid
      exact h i hx

/-- Unfolding of `placedOK`. -/
theorem placedOK_iff (a : Arrangement) :
    placedOK a = true ↔ ∀ i, i ∈ placedPieces a → i < 16 := by
  simp [placedOK, List.all_eq_true]

/-- A placed cell's piece index is recorded in `placedPieces`. -/
theorem mem_placedPieces (a : Arrangement) (r c : Nat) (pl : Placement)
    (h : cellAt a r c = some pl) : pl.piece ∈ placedPieces a := by
  unfold cellAt at h
  cases hr : a.get? r with
  | none => rw [hr] at h; cases h
  | some rl =>
    rw [hr] at h
    replace h : (rl.get? c).join = some pl := h
    cases hc : rl.get? c with
    | none => rw [hc] at h; cases h
    | some cell =>
      rw [hc] at h
      have hcell : cell = some pl := h
      have hrl : rl ∈ a := List.get?_mem hr
      have hcm : cell ∈ rl := List.get?_mem hc
      unfold placedPieces
      rw [List.mem_join]
      refine ⟨rowPieces rl, List.mem_map_of_mem rowPieces hrl, ?_⟩
      unfold rowPieces
      rw [List.mem_filterMap]
      exact ⟨cell, hcm, by rw [hcell]; rfl⟩

/-- The first-`none` scan of a row whose cells are filled exactly below `m`. -/
theorem firstNoneIdx_filled (rl : List Cell) (m : Nat)
    (h : ∀ c, c < rl.length → ((rl.get? c).join).isSome = decide (c < m)) :
    firstNoneIdx rl = if m < rl.length then some m else none := by
  induction rl generalizing m with
  | nil => simp [firstNoneIdx]
  | cons c0 rest ih =>
    have h0 : c0.isSome = decide (0 < m) := by simpa using h 0 (by simp)
    cases m with
    | zero =>
      have hnone : c0.isNone = true := by
        cases c0 with
        | none => rfl
        | some x => simp at h0
      simp [firstNoneIdx, hnone]
    | succ m' =>
      have hsome : c0.isNone = false := by
        cases c0 with
        | none => simp at h0
        | some x => rfl
      have hrest : ∀ c, c < rest.length → ((rest.get? c).join).isSome = decide (c < m') := by
        intro c hc
        have h2 := h (c + 1) (by simpa using Nat.succ_lt_succ hc)
        simpa [Nat.succ_lt_succ_iff] using h2
      simp only [firstNoneIdx, hsome, Bool.false_eq_true, if_false, ih m' hrest]
      by_cases hm : m' < rest.length
      · rw [if_pos hm, if_pos (by simp only [List.length_cons]; omega)]
        rfl
      · rw [if_neg hm, if_neg (by simp only [List.length_cons]; omega)]
        rfl

/-- On a row-major filled 4-row board the next open spot is the cell of
row-major index `n` (or none when the board is full). -/
theorem nextOpentSpot_filled (a : Arrangement) (n : Nat)
    (hshape : boardShape a = true) (hfill : filledUpTo a n = true) :
    nextOpentSpot a = spotOfCount n := by
  obtain ⟨r0, r1, r2, r3, rfl, h0, h1, h2, h3⟩ := boardShape_destruct a hshape
  have hcell := (filledUpTo_iff _ n).mp hfill
  have f0 : firstNoneIdx r0 = if n < r0.length then some n else none := by
    apply firstNoneIdx_filled
    intro c hc
    have hx := hcell 0 (by decide) c (by omega)
    have e : cellAt [r0, r1, r2, r3] 0 c = (r0.get? c).join := rfl
    rw [e] at hx
    rw [hx]
    exact decide_eq_decide.mpr (by omega)
  have f1 : firstNoneIdx r1 = if n - 1 < r1.length then some (n - 1) else none := by
    apply firstNoneIdx_filled
    intro c hc
    have hx := hcell 1 (by decide) c (by omega)
    have e : cellAt [r0, r1, r2, r3] 1 c = (r1.get? c).join := rfl
    rw [e] at hx
    rw [hx]
    exact decide_eq_decide.mpr (by omega)
  have f2 : firstNoneIdx r2 = if n - 4 < r2.length then some (n - 4) else none := by
    apply firstNoneIdx_filled
    intro c hc
    have hx := hcell 2 (by decide) c (by omega)
    have e : cellAt [r0, r1, r2, r3] 2 c = (r2.get? c).join := rfl
    rw [e] at hx
    rw [hx]
    exact decide_eq_decide.mpr (by omega)
  have f3 : firstNoneIdx r3 = if n - 9 < r3.length then some (n - 9) else none := by
    apply firstNoneIdx_filled
    intro c hc
    have hx := hcell 3 (by decide) c (by omega)
    have e : cellAt [r0, r1, r2, r3] 3 c = (r3.get? c).join := rfl
    rw [e] at hx
    rw [hx]
    exact decide_eq_decide.mpr (by omega)
  rw [h0] at f0
  rw [h1] at f1
  rw [h2] at f2
  rw [h3] at f3
  show nextOpentSpotAux 0 [r0, r1, r2, r3] = spotOfCount n
  unfold spotOfCount
  by_cases c1 : n < 1
  · rw [if_pos c1] at f0 ⊢
    simp only [nextOpentSpotAux, f0]
  · rw [if_neg c1] at f0
    rw [if_neg c1]
    by_cases c4 : n < 4
    · have : n - 1 < 3 := by omega
      rw [if_pos this] at f1
      rw [if_pos c4]
      simp only [nextOpentSpotAux, f0, f1]
    · have : ¬ (n - 1 < 3) := by omega
      rw [if_neg this] at f1
      rw [if_neg c4]
      by_cases c9 : n < 9
      · have h' : n - 4 < 5 := by omega
        rw [if_pos h'] at f2
        rw [if_pos c9]
        simp only [nextOpentSpotAux, f0, f1, f2]
      · have h' : ¬ (n - 4 < 5) := by omega
        rw [if_neg h'] at f2
        rw [if_neg c9]
        by_cases c16 : n < 16
        · have h'' : n - 9 < 7 := by omega
          rw [if_pos h''] at f3
          rw [if_pos c16]
          simp only [nextOpentSpotAux, f0, f1, f2, f3]
        · have h'' : ¬ (n - 9 < 7) := by omega
          rw [if_neg h''] at f3
          rw [if_neg c16]
          simp only [nextOpentSpotAux, f0, f1, f2, f3]

/-- At the open cell of a row-major filled board the cell exists and is
empty, and the situation there is defined (every neighbor it reads is already
placed). -/
theorem open_spot_props (a : Arrangement) (n r c : Nat) (rl : List Cell)
    (hfillC : ∀ r', r' < 4 → ∀ c', c' < 2 * r' + 1 →
      (cellAt a r' c').isSome = decide (r' * r' + c' < n))
    (hplaced : ∀ i, i ∈ placedPieces a → i < 16)
    (hr4 : r < 4) (hrow : a.get? r = some rl) (hlen : rl.length = 2 * r + 1)
    (hrc : r * r + c = n) (hcb : c < 2 * r + 1) :
    rl.get? c = some none ∧ (situationAtSpot a ⟨r, c⟩).isSome = true := by
  have hopen : rl.get? c = some none := by
    have hx := hfillC r hr4 c hcb
    have e : cellAt a r c = (rl.get? c).join := by
      unfold cellAt
      rw [hrow]
      rfl
    rw [e] at hx
    obtain ⟨x, hx2⟩ : ∃ x, rl.get? c = some x :=
      ⟨_, List.get?_eq_get (show c < rl.length by omega)⟩
    rw [hx2] at hx
    have hfalse : decide (r * r + c < n) = false := by
      rw [decide_eq_false_iff_not]
      omega
    rw [hfalse] at hx
    cases x with
    | none => exact hx2
    | some pl => simp at hx
  refine ⟨hopen, ?_⟩
  have hleft : c ≠ 0 → ∃ pl, cellAt a r (c - 1) = some pl ∧ pl.piece < pieces.length := by
    intro hc0
    have hx := hfillC r hr4 (c - 1) (by omega)
    have htrue : decide (r * r + (c - 1) < n) = true := by
      rw [decide_eq_true_eq]
      omega
    rw [htrue] at hx
    obtain ⟨pl, hpl⟩ := Option.isSome_iff_exists.mp hx
    exact ⟨pl, hpl, hplaced _ (mem_placedPieces a r (c - 1) pl hpl)⟩
  have habove : c % 2 = 1 → ∃ pl, cellAt a (r - 1) (c - 1) = some pl ∧
      pl.piece < pieces.length := by
    intro hodd
    have hr1 : 1 ≤ r := by omega
    have hsq : (r - 1) * (r - 1) + 2 * r = r * r + 1 := by
      cases r with
      | zero => omega
      | succ r' =>
        simp only [Nat.succ_sub_one]
        ring
    have hx := hfillC (r - 1) (by omega) (c - 1) (by omega)
    have htrue : decide ((r - 1) * (r - 1) + (c - 1) < n) = true := by
      rw [decide_eq_true_eq]
      omega
    rw [htrue] at hx
    obtain ⟨pl, hpl⟩ := Option.isSome_iff_exists.mp hx
    exact ⟨pl, hpl, hplaced _ (mem_placedPieces a (r - 1) (c - 1) pl hpl)⟩
  obtain ⟨s, hs, -, -⟩ :=
    situationAtSpot_entries a r c rl hrow hlen hr4 hcb hleft habove
  rw [hs]
  rfl

/-- Combination: on a row-major filled board with fewer than 16 placements,
`nextOpentSpot` returns the cell of index `n`, that cell is empty, and its
situation is defined. -/
theorem open_spot_exists (a : Arrangement) (n : Nat)
    (hshape : boardShape a = true) (hfill : filledUpTo a n = true)
    (hplaced : placedOK a = true) (hn : n < 16) :
    ∃ r c rl, nextOpentSpot a = some ⟨r, c⟩ ∧ r < 4 ∧ c < 2 * r + 1 ∧ r * r + c = n ∧
      a.get? r = some rl ∧ rl.length = 2 * r + 1 ∧ rl.get? c = some none ∧
      (situationAtSpot a ⟨r, c⟩).isSome = true := by
  have hnext := nextOpentSpot_filled a n hshape hfill
  have hcellC := (filledUpTo_iff _ n).mp hfill
  have hplC := (placedOK_iff _).mp hplaced
  obtain ⟨r0, r1, r2, r3, ha, h0, h1, h2, h3⟩ := boardShape_destruct a hshape
  unfold spotOfCount at hnext
  by_cases c1 : n < 1
  · rw [if_pos c1] at hnext
    have hprops := open_spot_props a n 0 n r0 hcellC hplC (by decide)
      (by rw [ha]; rfl) (by omega) (by omega) (by omega)
    exact ⟨0, n, r0, hnext, by decide, by omega, by omega, by rw [ha]; rfl, by omega,
      hprops.1, hprops.2⟩
  · rw [if_neg c1] at hnext
    by_cases c4 : n < 4
    · rw [if_pos c4] at hnext
      have hprops := open_spot_props a n 1 (n - 1) r1 hcellC hplC (by decide)
        (by rw [ha]; rfl) (by omega) (by omega) (by omega)
      exact ⟨1, n - 1, r1, hnext, by decide, by omega, by omega, by rw [ha]; rfl, by omega,
        hprops.1, hprops.2⟩
    · rw [if_neg c4] at hnext
      by_cases c9 : n < 9
      · rw [if_pos c9] at hnext
        have hprops := open_spot_props a n 2 (n - 4) r2 hcellC hplC (by decide)
          (by rw [ha]; rfl) (by omega) (by omega) (by omega)
        exact ⟨2, n - 4, r2, hnext, by decide, by omega, by omega, by rw [ha]; rfl, by omega,
          hprops.1, hprops.2⟩
      · rw [if_neg c9] at hnext
        rw [if_pos hn] at hnext
        have hprops := open_spot_props a n 3 (n - 9) r3 hcellC hplC (by decide)
          (by rw [ha]; rfl) (by omega) (by omega) (by omega)
        exact ⟨3, n - 9, r3, hnext, by decide, by omega, by omega, by rw [ha]; rfl, by omega,
          hprops.1, hprops.2⟩

/-- Reading a cell after `placeAt`: the written cell holds the new value,
every other cell is unchanged. -/
theorem cellAt_placeAt (a : Arrangement) (r c : Nat) (v : Cell) (r' c' : Nat)
    (rl : List Cell) (hr : a.get? r = some rl) (hc : c < rl.length) :
    cellAt (placeAt a r c v) r' c' =
      if r = r' ∧ c = c' then v else cellAt a r' c' := by
  have hpe : placeAt a r c v = a.set r (rl.set c v) := by
    unfold placeAt
    rw [hr]
  rw [hpe]
  unfold cellAt
  by_cases hr' : r = r'
  · subst hr'
    have hg : (a.set r (rl.set c v)).get? r = some (rl.set c v) := by
      rw [List.get?_set_eq]
      rw [hr]
      rfl
    rw [hg, hr]
    by_cases hc' : c = c'
    · subst hc'
      rw [if_pos ⟨rfl, rfl⟩]
      have hg2 : (rl.set c v).get? c = some v := by
        rw [List.get?_set_eq]
        rw [List.get?_eq_get hc]
        rfl
      simp only [Option.some_bind]
      rw [hg2]
      rfl
    · rw [if_neg (fun h => hc' h.2)]
      simp only [Option.some_bind]
      rw [List.get?_set_ne _ _ hc']
  · rw [if_neg (fun h => hr' h.1)]
    rw [List.get?_set_ne _ _ hr']

/-- The shape of the board survives a `placeAt`. -/
theorem boardShape_placeAt (a : Arrangement) (r c : Nat) (v : Cell)
    (h : boardShape a = true) : boardShape (placeAt a r c v) = true := by
  unfold placeAt
  cases hr : a.get? r with
  | none => exact h
  | some rl =>
    have hm : (a.set r (rl.set c v)).map List.length = a.map List.length := by
      have : ∀ (l : Arrangement) (i : Nat), l.get? i = some rl →
          (l.set i (rl.set c v)).map List.length = l.map List.length := by
        intro l
        induction l with
        | nil => intro i hi; cases hi
        | cons hd tl ih =>
          intro i hi
          cases i with
          | zero =>
            cases hi
            simp [List.set, List.length_set]
          | succ i' =>
            simp only [List.get?] at hi
            simp [List.set, ih i' hi]
      exact this a r hr
    unfold boardShape at h ⊢
    rw [hm]
    exact h

/-- The placed-piece list after a `placeAt` into an empty cell is a
permutation of the new piece consed onto the old list. -/
theorem placedPieces_placeAt_perm (a : Arrangement) (r c : Nat) (pl : Placement)
    (rl : List Cell) (hr : a.get? r = some rl) (hc : rl.get? c = some none) :
    List.Perm (placedPieces (placeAt a r c (some pl))) (pl.piece :: placedPieces a) := by
  have hrow : List.Perm (rowPieces (rl.set c (some pl))) (pl.piece :: rowPieces rl) := by
    clear hr
    induction rl generalizing c with
    | nil => simp at hc
    | cons x rest ih =>
      cases c with
      | zero =>
        simp only [List.get?] at hc
        cases hc
        simp [List.set, rowPieces]
      | succ c' =>
        simp only [List.get?] at hc
        cases x with
        | none =>
          show List.Perm (rowPieces (none :: rest.set c' (some pl))) _
          have e1 : rowPieces (none :: rest.set c' (some pl)) =
              rowPieces (rest.set c' (some pl)) := rfl
          have e2 : rowPieces (none :: rest) = rowPieces rest := rfl
          rw [e1, e2]
          exact ih c' hc
        | some q =>
          show List.Perm (rowPieces (some q :: rest.set c' (some pl))) _
          have e1 : rowPieces (some q :: rest.set c' (some pl)) =
              q.piece :: rowPieces (rest.set c' (some pl)) := rfl
          have e2 : rowPieces (some q :: rest) = q.piece :: rowPieces rest := rfl
          rw [e1, e2]
          exact List.Perm.trans (List.Perm.cons _ (ih c' hc)) (List.Perm.swap _ _ _)
  have hpe : placeAt a r c (some pl) = a.set r (rl.set c (some pl)) := by
    unfold placeAt
    rw [hr]
  rw [hpe]
  clear hpe hc
  induction a generalizing r with
  | nil => cases hr
  | cons hd tl ih =>
    cases r with
    | zero =>
      cases hr
      have e1 : placedPieces ((rl.set c (some pl)) :: tl) =
          rowPieces (rl.set c (some pl)) ++ placedPieces tl := rfl
      have e2 : placedPieces (rl :: tl) = rowPieces rl ++ placedPieces tl := rfl
      show List.Perm (placedPieces ((rl.set c (some pl)) :: tl)) _
      rw [e1, e2]
      exact hrow.append_right _
    | succ r' =>
      simp only [List.get?] at hr
      have e1 : placedPieces (hd :: tl.set r' (rl.set c (some pl))) =
          rowPieces hd ++ placedPieces (tl.set r' (rl.set c (some pl))) := rfl
      have e2 : placedPieces (hd :: tl) = rowPieces hd ++ placedPieces tl := rfl
      show List.Perm (placedPieces (hd :: tl.set r' (rl.set c (some pl)))) _
      rw [e1, e2]
      exact List.Perm.trans (List.Perm.append_left _ (ih r' hr)) List.perm_middle

/-- Placing at the open cell of row-major index `n` extends the filled
region to `n + 1`. -/
theorem filledUpTo_placeAt (a : Arrangement) (n r c : Nat) (rl : List Cell)
    (pl : Placement)
    (hfill : filledUpTo a n = true) (hrow : a.get? r = some rl)
    (hlen : rl.length = 2 * r + 1) (hr4 : r < 4) (hcb : c < 2 * r + 1)
    (hrc : r * r + c = n) :
    filledUpTo (placeAt a r c (some pl)) (n + 1) = true := by
  have hcellC := (filledUpTo_iff _ n).mp hfill
  rw [filledUpTo_iff]
  intro r' hr' c' hc'
  rw [cellAt_placeAt a r c (some pl) r' c' rl hrow (by omega)]
  by_cases he : r = r' ∧ c = c'
  · rw [if_pos he]
    obtain ⟨he1, he2⟩ := he
    subst he1
    subst he2
    have : r * r + c < n + 1 := by omega
    simp [this]
  · rw [if_neg he]
    have hne : r' * r' + c' ≠ n := by
      intro heq
      by_cases hr'' : r = r'
      · subst hr''
        exact he ⟨rfl, by omega⟩
      · interval_cases r <;> interval_cases r' <;> omega
    rw [hcellC r' hr' c' hc']
    exact decide_eq_decide.mpr (by omega)

/-- Availability indexes survive `removeIndex`. -/
theorem availOK_removeIndex (avail : List (Option Nat)) (i : Nat)
    (h : availOK avail = true) : availOK (removeIndex avail i) = true := by
  rw [availOK_iff] at h ⊢
  intro j hj
  apply h
  unfold removeIndex at hj
  obtain ⟨x, hx, hxe⟩ := List.mem_map.mp hj
  by_cases hxi : x = some i
  · rw [if_pos hxi] at hxe
    cases hxe
  · rw [if_neg hxi] at hxe
    exact hxe ▸ hx

/-- Membership in the reduced availability map implies membership in the
original one. -/
theorem mem_removeIndex (avail : List (Option Nat)) (i j : Nat)
    (h : some j ∈ removeIndex avail i) : some j ∈ avail ∧ j ≠ i := by
  unfold removeIndex at h
  obtain ⟨x, hx, hxe⟩ := List.mem_map.mp h
  by_cases hxi : x = some i
  · rw [if_pos hxi] at hxe
    cases hxe
  · rw [if_neg hxi] at hxe
    subst hxe
    exact ⟨hx, fun hji => hxi (by rw [hji])⟩

/-- Placed pieces stay in range after placing an in-range piece. -/
theorem placedOK_placeAt (a : Arrangement) (r c : Nat) (pl : Placement)
    (rl : List Cell) (hr : a.get? r = some rl) (hc : rl.get? c = some none)
    (hpl : pl.piece < 16) (h : placedOK a = true) :
    placedOK (placeAt a r c (some pl)) = true := by
  rw [placedOK_iff] at h ⊢
  intro j hj
  have hperm := placedPieces_placeAt_perm a r c pl rl hr hc
  have hj2 : j ∈ pl.piece :: placedPieces a := hperm.mem_iff.mp hj
  rcases List.mem_cons.mp hj2 with rfl | hj3
  · exact hpl
  · exact h j hj3

/-- The clone is equal, cell for cell, to the original arrangement. -/
theorem cloneArrangement_eq (a : Arrangement) : cloneArrangement a = a := by
  simp [cloneArrangement]

/-- A fit loop whose recursive calls all succeed succeeds. -/
theorem fitsLoop_isSome (R : List (Option Nat) → Arrangement → Option (List Arrangement))
    (A : List (Option Nat)) (a : Arrangement) (spot : Position) (i : Nat)
    (h : ∀ f, (R (removeIndex A i)
      (placeAt (cloneArrangement a) spot.row spot.col (some ⟨i, f⟩))).isSome = true) :
    ∀ fits, (fitsLoop R A a spot i fits).isSome = true := by
  intro fits
  induction fits with
  | nil => rfl
  | cons f fs ih =>
    simp only [fitsLoop]
    cases hx : R (removeIndex A i)
        (placeAt (cloneArrangement a) spot.row spot.col (some ⟨i, f⟩)) with
    | none =>
      have h2 := h f
      rw [hx] at h2
      simp at h2
    | some o1 =>
      cases hy : fitsLoop R A a spot i fs with
      | none =>
        rw [hy] at ih
        simp at ih
      | some o2 => rfl

/-- An availability loop over in-range pieces whose recursive calls all
succeed succeeds. -/
theorem availLoop_isSome (R : List (Option Nat) → Arrangement → Option (List Arrangement))
    (A : List (Option Nat)) (a : Arrangement) (spot : Position) (sit : DotSituation)
    (rest : List (Option Nat))
    (hmem16 : ∀ i, some i ∈ rest → i < 16)
    (hrec : ∀ i f, some i ∈ rest → (R (removeIndex A i)
      (placeAt (cloneArrangement a) spot.row spot.col (some ⟨i, f⟩))).isSome = true) :
    (availLoop R A a spot sit rest).isSome = true := by
  induction rest with
  | nil => rfl
  | cons x rest ih =>
    cases x with
    | none =>
      rw [availLoop_none_step]
      exact ih (fun i h => hmem16 i (List.mem_cons_of_mem _ h))
        (fun i f h => hrec i f (List.mem_cons_of_mem _ h))
    | some i =>
      have hi16 : i < 16 := hmem16 i (List.mem_cons_self _ _)
      obtain ⟨piece, hp⟩ : ∃ pc, pieces.get? i = some pc :=
        ⟨_, List.get?_eq_get (show i < pieces.length from hi16)⟩
      simp only [availLoop, hp]
      cases hf : fitsLoop R A a spot i (fitsThatMatchTheConstraints sit piece) with
      | none =>
        have h2 := fitsLoop_isSome R A a spot i
          (fun f => hrec i f (List.mem_cons_self _ _))
          (fitsThatMatchTheConstraints sit piece)
        rw [hf] at h2
        simp at h2
      | some o1 =>
        cases ha2 : availLoop R A a spot sit rest with
        | none =>
          have h3 := ih (fun j h => hmem16 j (List.mem_cons_of_mem _ h))
            (fun j f h => hrec j f (List.mem_cons_of_mem _ h))
          rw [ha2] at h3
          simp at h3
        | some o2 => rfl

/-- One solver level on a row-major filled board succeeds whenever all its
recursive calls succeed. -/
theorem solvePuzzleStep_isSome (R : List (Option Nat) → Arrangement → Option (List Arrangement))
    (avail : List (Option Nat)) (a : Arrangement) (n : Nat)
    (hshape : boardShape a = true) (hfill : filledUpTo a n = true)
    (havail : availOK avail = true) (hplaced : placedOK a = true)
    (hrec : ∀ i f r c, some i ∈ avail → nextOpentSpot a = some ⟨r, c⟩ →
      (R (removeIndex avail i) (placeAt (cloneArrangement a) r c (some ⟨i, f⟩))).isSome = true) :
    (solvePuzzleStep R avail a).isSome = true := by
  by_cases hn : n < 16
  · obtain ⟨r, c, rl, hnext, hr4, hcb, hrc, hrow, hlen, hopen, hsit⟩ :=
      open_spot_exists a n hshape hfill hplaced hn
    obtain ⟨sit, hsit2⟩ := Option.isSome_iff_exists.mp hsit
    rw [solvePuzzleStep_eq R avail a ⟨r, c⟩ sit hnext hsit2]
    apply availLoop_isSome
    · intro i hi
      exact (availOK_iff avail).mp havail i hi
    · intro i f hi
      exact hrec i f r c hi hnext
  · have hnext : nextOpentSpot a = none := by
      rw [nextOpentSpot_filled a n hshape hfill]
      unfold spotOfCount
      rw [if_neg (by omega), if_neg (by omega), if_neg (by omega), if_neg (by omega)]
    unfold solvePuzzleStep
    rw [hnext]
    rfl

/-- Main induction: on a row-major filled board with enough fuel, the solver
never throws. -/
theorem solvePuzzleGo_isSome : ∀ (fuel : Nat) (avail : List (Option Nat))
    (a : Arrangement) (n : Nat), countAvailable avail ≤ fuel →
    boardShape a = true → filledUpTo a n = true → availOK avail = true →
    placedOK a = true → (solvePuzzleGo fuel avail a).isSome = true := by
  intro fuel
  induction fuel with
  | zero =>
    intro avail a n hcnt hshape hfill havail hplaced
    show (solvePuzzleStep (fun _ _ => none) avail a).isSome = true
    apply solvePuzzleStep_isSome _ avail a n hshape hfill havail hplaced
    intro i f r c hi _
    exfalso
    have hz : countAvailable avail = 0 := by omega
    have h2 := List.countP_eq_zero.mp hz _ hi
    simp at h2
  | succ fuel ih =>
    intro avail a n hcnt hshape hfill havail hplaced
    show (solvePuzzleStep (solvePuzzleGo fuel) avail a).isSome = true
    apply solvePuzzleStep_isSome _ avail a n hshape hfill havail hplaced
    intro i f r c hi hnext
    have hn16 : n < 16 := by
      by_contra h16
      have hnone : nextOpentSpot a = none := by
        rw [nextOpentSpot_filled a n hshape hfill]
        unfold spotOfCount
        rw [if_neg (by omega), if_neg (by omega), if_neg (by omega), if_neg (by omega)]
      rw [hnone] at hnext
      cases hnext
    obtain ⟨r', c', rl, hnext', hr4, hcb, hrc, hrow, hlen, hopen, hsit⟩ :=
      open_spot_exists a n hshape hfill hplaced hn16
    rw [hnext'] at hnext
    have hre : r = r' := (congrArg Position.row (Option.some.inj hnext)).symm
    subst hre
    have hce : c = c' := (congrArg Position.col (Option.some.inj hnext)).symm
    subst hce
    rw [cloneArrangement_eq]
    have hi16 : i < 16 := (availOK_iff avail).mp havail i hi
    apply ih (removeIndex avail i) _ (n + 1)
    · have := countAvailable_removeIndex_lt avail i hi
      omega
    · exact boardShape_placeAt a r c (some ⟨i, f⟩) hshape
    · exact filledUpTo_placeAt a n r c rl ⟨i, f⟩ hfill hrow hlen hr4 hcb hrc
    · exact availOK_removeIndex avail i havail
    · exact placedOK_placeAt a r c ⟨i, f⟩ rl hrow hopen hi16 hplaced

/-- C5: in every arrangement reachable during the search from the fully empty
board the filled cells form a row-major prefix of the 4-row board
(`filledUpTo`, preserved by each placement at the next open spot), so at the
cell returned by `nextOpentSpot` every neighbor read by `situationAtSpot` is
already placed — the situation is defined — and the throw inside
`getSideOfPiece` is unreachable: the whole search returns a result
(`isSome`) instead of the `none` that models the exception. -/
theorem solvePuzzle_rowMajor_no_throw (avail : List (Option Nat)) (a : Arrangement)
    (n : Nat) (hshape : boardShape a = true) (hfill : filledUpTo a n = true)
    (havail : availOK avail = true) (hplaced : placedOK a = true) :
    (∀ spot, nextOpentSpot a = some spot → (situationAtSpot a spot).isSome = true) ∧
      (∀ spot pl, nextOpentSpot a = some spot →
        boardShape (placeAt (cloneArrangement a) spot.row spot.col (some pl)) = true ∧
        filledUpTo (placeAt (cloneArrangement a) spot.row spot.col (some pl)) (n + 1) = true) ∧
      (solvePuzzle avail a).isSome = true := by
  have hspotfacts : ∀ spot, nextOpentSpot a = some spot →
      ∃ rl, spot.row < 4 ∧ spot.col < 2 * spot.row + 1 ∧
        spot.row * spot.row + spot.col = n ∧ a.get? spot.row = some rl ∧
        rl.length = 2 * spot.row + 1 ∧ rl.get? spot.col = some none ∧
        (situationAtSpot a spot).isSome = true := by
    intro spot hnext
    have hn16 : n < 16 := by
      by_contra h16
      have hnone : nextOpentSpot a = none := by
        rw [nextOpentSpot_filled a n hshape hfill]
        unfold spotOfCount
        rw [if_neg (by omega), if_neg (by omega), if_neg (by omega), if_neg (by omega)]
      rw [hnone] at hnext
      cases hnext
    obtain ⟨r', c', rl, hnext', hr4, hcb, hrc, hrow, hlen, hopen, hsit⟩ :=
      open_spot_exists a n hshape hfill hplaced hn16
    rw [hnext'] at hnext
    have hsp : spot = ⟨r', c'⟩ := (Option.some.inj hnext).symm
    subst hsp
    exact ⟨rl, hr4, hcb, hrc, hrow, hlen, hopen, hsit⟩
  refine ⟨fun spot hnext => (hspotfacts spot hnext).choose_spec.2.2.2.2.2.2, ?_, ?_⟩
  · intro spot pl hnext
    obtain ⟨rl, hr4, hcb, hrc, hrow, hlen, hopen, -⟩ := hspotfacts spot hnext
    rw [cloneArrangement_eq]
    exact ⟨boardShape_placeAt a spot.row spot.col (some pl) hshape,
      filledUpTo_placeAt a n spot.row spot.col rl pl hfill hrow hlen hr4 hcb hrc⟩
  · exact solvePuzzleGo_isSome (countAvailable avail) avail a n (Nat.le_refl _)
      hshape hfill havail hplaced

/-- Witness for C5 at the initial state: the fully empty 4-row board with all
16 piece indexes available and zero cells filled. -/
theorem solvePuzzle_rowMajor_no_throw_witness :
    (∀ spot, nextOpentSpot emptyPuzzle = some spot →
      (situationAtSpot emptyPuzzle spot).isSome = true) ∧
      (∀ spot pl, nextOpentSpot emptyPuzzle = some spot →
        boardShape (placeAt (cloneArrangement emptyPuzzle) spot.row spot.col (some pl)) = true ∧
        filledUpTo (placeAt (cloneArrangement emptyPuzzle) spot.row spot.col (some pl))
          (0 + 1) = true) ∧
      (solvePuzzle initialAvailable emptyPuzzle).isSome = true :=
  solvePuzzle_rowMajor_no_throw initialAvailable emptyPuzzle 0 (by decide) (by decide)
    (by decide) (by decide)

/-- The index found by `firstNoneIdx` really holds an empty cell. -/
theorem firstNoneIdx_open : ∀ (rl : List Cell) (c : Nat),
    firstNoneIdx rl = some c → rl.get? c = some none := by
  intro rl
  induction rl with
  | nil => intro c h; cases h
  | cons x rest ih =>
    intro c h
    simp only [firstNoneIdx] at h
    by_cases hx : x.isNone = true
    · rw [if_pos hx] at h
      cases h
      have hxn : x = none := Option.isNone_iff_eq_none.mp hx
      subst hxn
      rfl
    · rw [if_neg hx] at h
      cases hfi : firstNoneIdx rest with
      | none => rw [hfi] at h; cases h
      | some c' =>
        rw [hfi] at h
        have hc : c = c' + 1 := by
          cases h
          rfl
        subst hc
        exact ih c' hfi

/-- The spot found by the row scan holds an empty cell. -/
theorem nextOpentSpotAux_open : ∀ (l : List (List Cell)) (row0 : Nat) (spot : Position),
    nextOpentSpotAux row0 l = some spot →
    row0 ≤ spot.row ∧ ∃ rl, l.get? (spot.row - row0) = some rl ∧
      rl.get? spot.col = some none := by
  intro l
  induction l with
  | nil => intro row0 spot h; cases h
  | cons r rest ih =>
    intro row0 spot h
    simp only [nextOpentSpotAux] at h
    cases hfi : firstNoneIdx r with
    | some col =>
      rw [hfi] at h
      cases h
      exact ⟨Nat.le_refl _, r, by simp, firstNoneIdx_open r col hfi⟩
    | none =>
      rw [hfi] at h
      obtain ⟨hle, rl, hget, hopen⟩ := ih (row0 + 1) spot h
      refine ⟨by omega, rl, ?_, hopen⟩
      have : spot.row - row0 = (spot.row - (row0 + 1)) + 1 := by omega
      rw [this]
      simpa using hget

/-- The next open spot holds an empty cell. -/
theorem nextOpentSpot_open (a : Arrangement) (spot : Position)
    (h : nextOpentSpot a = some spot) :
    ∃ rl, a.get? spot.row = some rl ∧ rl.get? spot.col = some none := by
  obtain ⟨-, rl, hget, hopen⟩ := nextOpentSpotAux_open a 0 spot h
  exact ⟨rl, by simpa using hget, hopen⟩

/-- Solutions of a fit loop come from one of its recursive calls. -/
theorem mem_fitsLoop (R : List (Option Nat) → Arrangement → Option (List Arrangement))
    (A : List (Option Nat)) (a : Arrangement) (spot : Position) (i : Nat) :
    ∀ (fits : List Nat) (out : List Arrangement) (sol : Arrangement),
    fitsLoop R A a spot i fits = some out → sol ∈ out →
    ∃ f out1, R (removeIndex A i)
      (placeAt (cloneArrangement a) spot.row spot.col (some ⟨i, f⟩)) = some out1 ∧
      sol ∈ out1 := by
  intro fits
  induction fits with
  | nil =>
    intro out sol h hm
    cases h
    cases hm
  | cons f fs ih =>
    intro out sol h hm
    simp only [fitsLoop] at h
    cases hx : R (removeIndex A i)
        (placeAt (cloneArrangement a) spot.row spot.col (some ⟨i, f⟩)) with
    | none => rw [hx] at h; cases h
    | some o1 =>
      rw [hx] at h
      cases hy : fitsLoop R A a spot i fs with
      | none => rw [hy] at h; cases h
      | some o2 =>
        rw [hy] at h
        cases h
        rcases List.mem_append.mp hm with h1 | h2
        · exact ⟨f, o1, hx, h1⟩
        · exact ih o2 sol hy h2

/-- Solutions of an availability loop come from one of its branches. -/
theorem mem_availLoop (R : List (Option Nat) → Arrangement → Option (List Arrangement))
    (A : List (Option Nat)) (a : Arrangement) (spot : Position) (sit : DotSituation) :
    ∀ (rest : List (Option Nat)) (out : List Arrangement) (sol : Arrangement),
    availLoop R A a spot sit rest = some out → sol ∈ out →
    ∃ i f out1, some i ∈ rest ∧
      R (removeIndex A i)
        (placeAt (cloneArrangement a) spot.row spot.col (some ⟨i, f⟩)) = some out1 ∧
      sol ∈ out1 := by
  intro rest
  induction rest with
  | nil =>
    intro out sol h hm
    cases h
    cases hm
  | cons x rest ih =>
    intro out sol h hm
    cases x with
    | none =>
      rw [availLoop_none_step] at h
      obtain ⟨i, f, out1, hmem, hr, hs⟩ := ih out sol h hm
      exact ⟨i, f, out1, List.mem_cons_of_mem _ hmem, hr, hs⟩
    | some i =>
      cases hp : pieces.get? i with
      | none =>
        simp only [availLoop, hp] at h
        cases h
      | some piece =>
        simp only [availLoop, hp] at h
        cases hf : fitsLoop R A a spot i (fitsThatMatchTheConstraints sit piece) with
        | none => rw [hf] at h; cases h
        | some o1 =>
          rw [hf] at h
          cases ha2 : availLoop R A a spot sit rest with
          | none => rw [ha2] at h; cases h
          | some o2 =>
            rw [ha2] at h
            cases h
            rcases List.mem_append.mp hm with h1 | h2
            · obtain ⟨f, out1, hr, hs⟩ := mem_fitsLoop R A a spot i _ o1 sol hf h1
              exact ⟨i, f, out1, List.mem_cons_self _ _, hr, hs⟩
            · obtain ⟨j, f, out1, hmem, hr, hs⟩ := ih o2 sol ha2 h2
              exact ⟨j, f, out1, List.mem_cons_of_mem _ hmem, hr, hs⟩

/-- Main induction for piece uniqueness: if no placed piece repeats and every
available piece is unplaced, every emitted solution keeps all placed pieces
distinct. -/
theorem solvePuzzleGo_nodup : ∀ (fuel : Nat) (avail : List (Option Nat))
    (a : Arrangement) (out : List Arrangement) (sol : Arrangement),
    (placedPieces a).Nodup →
    (∀ i, some i ∈ avail → i ∉ placedPieces a) →
    solvePuzzleGo fuel avail a = some out → sol ∈ out →
    (placedPieces sol).Nodup := by
  intro fuel
  induction fuel with
  | zero =>
    intro avail a out sol hnodup hfresh h hm
    replace h : solvePuzzleStep (fun _ _ => none) avail a = some out := h
    unfold solvePuzzleStep at h
    cases hnext : nextOpentSpot a with
    | none =>
      rw [hnext] at h
      cases h
      rcases List.mem_singleton.mp hm with rfl
      exact hnodup
    | some spot =>
      simp only [hnext] at h
      cases hsit : situationAtSpot a spot with
      | none =>
        simp only [hsit] at h
        cases h
      | some sit =>
        simp only [hsit] at h
        obtain ⟨i, f, out1, hmem, hr, hs⟩ :=
          mem_availLoop _ avail a spot sit avail out sol h hm
        simp at hr
  | succ fuel ih =>
    intro avail a out sol hnodup hfresh h hm
    replace h : solvePuzzleStep (solvePuzzleGo fuel) avail a = some out := h
    unfold solvePuzzleStep at h
    cases hnext : nextOpentSpot a with
    | none =>
      rw [hnext] at h
      cases h
      rcases List.mem_singleton.mp hm with rfl
      exact hnodup
    | some spot =>
      simp only [hnext] at h
      cases hsit : situationAtSpot a spot with
      | none =>
        simp only [hsit] at h
        cases h
      | some sit =>
        simp only [hsit] at h
        obtain ⟨i, f, out1, hmem, hr, hs⟩ :=
          mem_availLoop _ avail a spot sit avail out sol h hm
        rw [cloneArrangement_eq] at hr
        obtain ⟨rl, hrow, hopen⟩ := nextOpentSpot_open a spot hnext
        have hperm := placedPieces_placeAt_perm a spot.row spot.col ⟨i, f⟩ rl hrow hopen
        apply ih (removeIndex avail i) _ out1 sol ?_ ?_ hr hs
        · exact (hperm.nodup_iff).mpr (List.nodup_cons.mpr ⟨hfresh i hmem, hnodup⟩)
        · intro j hj hjmem
          obtain ⟨hjav, hjne⟩ := mem_removeIndex avail i j hj
          rcases List.mem_cons.mp (hperm.mem_iff.mp hjmem) with hji | hjold
          · exact hjne hji
          · exact hfresh j hjav hjold

/-- C6: piece identities are never reused.  If each placed piece index is
unique and every available index is unplaced, then (a) the state passed to
each recursive call — the clone with the chosen piece placed at the open spot
together with the reduced availability map — again has pairwise-distinct
placed pieces and only unplaced available indexes (so an index marked `false`
is never placed again in that branch), and (b) every emitted solution has
each piece index placed at most once. -/
theorem solvePuzzle_piece_once (avail : List (Option Nat)) (a : Arrangement)
    (hnodup : (placedPieces a).Nodup)
    (hfresh : ∀ i, some i ∈ avail → i ∉ placedPieces a) :
    (∀ i f spot, some i ∈ avail → nextOpentSpot a = some spot →
      (placedPieces (placeAt (cloneArrangement a) spot.row spot.col
        (some ⟨i, f⟩))).Nodup ∧
      (∀ j, some j ∈ removeIndex avail i →
        j ∉ placedPieces (placeAt (cloneArrangement a) spot.row spot.col
          (some ⟨i, f⟩)))) ∧
    (∀ out sol, solvePuzzle avail a = some out → sol ∈ out →
      (placedPieces sol).Nodup) := by
  constructor
  · intro i f spot hi hnext
    obtain ⟨rl, hrow, hopen⟩ := nextOpentSpot_open a spot hnext
    rw [cloneArrangement_eq]
    have hperm := placedPieces_placeAt_perm a spot.row spot.col ⟨i, f⟩ rl hrow hopen
    constructor
    · exact (hperm.nodup_iff).mpr (List.nodup_cons.mpr ⟨hfresh i hi, hnodup⟩)
    · intro j hj hjmem
      obtain ⟨hjav, hjne⟩ := mem_removeIndex avail i j hj
      rcases List.mem_cons.mp (hperm.mem_iff.mp hjmem) with hji | hjold
      · exact hjne hji
      · exact hfresh j hjav hjold
  · intro out sol hrun hm
    exact solvePuzzleGo_nodup (countAvailable avail) avail a out sol hnodup hfresh hrun hm

/-- Witness for C6 at the initial state of the full puzzle. -/
theorem solvePuzzle_piece_once_witness :
    (∀ i f spot, some i ∈ initialAvailable → nextOpentSpot emptyPuzzle = some spot →
      (placedPieces (placeAt (cloneArrangement emptyPuzzle) spot.row spot.col
        (some ⟨i, f⟩))).Nodup ∧
      (∀ j, some j ∈ removeIndex initialAvailable i →
        j ∉ placedPieces (placeAt (cloneArrangement emptyPuzzle) spot.row spot.col
          (some ⟨i, f⟩)))) ∧
    (∀ out sol, solvePuzzle initialAvailable emptyPuzzle = some out → sol ∈ out →
      (placedPieces sol).Nodup) :=
  solvePuzzle_piece_once initialAvailable emptyPuzzle (by decide)
    (fun i _ => List.not_mem_nil i)

theorem StorePreserved.refl (s : Store) : StorePreserved s s :=
  ⟨Nat.le_refl _, fun _ _ => rfl⟩

theorem StorePreserved.trans {s1 s2 s3 : Store}
    (h12 : StorePreserved s1 s2) (h23 : StorePreserved s2 s3) :
    StorePreserved s1 s3 :=
  ⟨Nat.le_trans h12.1 h23.1,
   fun addr ha => (h23.2 addr (Nat.lt_of_lt_of_le ha h12.1)).trans (h12.2 addr ha)⟩

/-- Appending allocations preserves the existing heap. -/
theorem StorePreserved.append (s t : Store) : StorePreserved s (s ++ t) :=
  ⟨by simp, fun addr ha => List.get?_append ha⟩

/-- Writing into a row allocated at or above the watermark preserves the
heap below it. -/
theorem StorePreserved.write {s0 s : Store} (h : StorePreserved s0 s)
    (addr col : Nat) (v : Cell) (haddr : s0.length ≤ addr) :
    StorePreserved s0 (writeCell s addr col v) := by
  unfold writeCell
  cases hg : s.get? addr with
  | none => exact h
  | some rowArr =>
    refine ⟨by simpa [List.length_set] using h.1, fun a ha => ?_⟩
    rw [List.get?_set_ne _ _ (by omega)]
    exact h.2 a ha

/-- The address the placement write targets is a fresh one (at or above the
allocation watermark of the clone). -/
theorem clone_addr_ge (s : Store) (ref : List Nat) (j addr : Nat)
    (hg : (cloneArrangementS s ref).2.get? j = some addr) : s.length ≤ addr := by
  unfold cloneArrangementS at hg
  rw [List.get?_map] at hg
  by_cases hj : j < ref.length
  · rw [List.get?_range hj] at hg
    cases hg
    exact Nat.le_add_right s.length j
  · rw [List.get?_eq_none.mpr (by simpa using Nat.le_of_not_lt hj)] at hg
    cases hg

/-- The fit loop of the heap model only ever writes into freshly allocated
rows, so the heap below its entry watermark is untouched. -/
theorem fitsLoopS_preserved (recur : List (Option Nat) → Store → List Nat → Store × Bool)
    (avail : List (Option Nat)) (spot : Position) (i : Nat) (ref : List Nat)
    (hrec : ∀ av s' r', StorePreserved s' (recur av s' r').1) :
    ∀ fits s, StorePreserved s (fitsLoopS recur avail spot i ref fits s).1 := by
  intro fits
  induction fits with
  | nil => intro s; exact StorePreserved.refl s
  | cons f fs ih =>
    intro s
    have hsp : StorePreserved s (cloneArrangementS s ref).1 := StorePreserved.append _ _
    cases hg : (cloneArrangementS s ref).2.get? spot.row with
    | none =>
      simp only [fitsLoopS, hg]
      exact hsp
    | some addr =>
      have haddr : s.length ≤ addr := clone_addr_ge s ref spot.row addr hg
      have hw : StorePreserved s
          (writeCell (cloneArrangementS s ref).1 addr spot.col (some ⟨i, f⟩)) :=
        hsp.write addr spot.col (some ⟨i, f⟩) haddr
      simp only [fitsLoopS, hg]
      cases hr : recur (removeIndex avail i)
          (writeCell (cloneArrangementS s ref).1 addr spot.col (some ⟨i, f⟩))
          (cloneArrangementS s ref).2 with
      | mk s3 crashed =>
        have hrec3 : StorePreserved
            (writeCell (cloneArrangementS s ref).1 addr spot.col (some ⟨i, f⟩)) s3 := by
          have h4 := hrec (removeIndex avail i)
            (writeCell (cloneArrangementS s ref).1 addr spot.col (some ⟨i, f⟩))
            (cloneArrangementS s ref).2
          rw [hr] at h4
          exact h4
        have hchain : StorePreserved s s3 := hw.trans hrec3
        cases crashed with
        | true => exact hchain
        | false => exact hchain.trans (ih s3)

/-- The availability loop of the heap model preserves the heap below its
entry watermark. -/
theorem availLoopS_preserved (recur : List (Option Nat) → Store → List Nat → Store × Bool)
    (avail : List (Option Nat)) (spot : Position) (sit : DotSituation) (ref : List Nat)
    (hrec : ∀ av s' r', StorePreserved s' (recur av s' r').1) :
    ∀ rest s, StorePreserved s (availLoopS recur avail spot sit ref rest s).1 := by
  intro rest
  induction rest with
  | nil => intro s; exact StorePreserved.refl s
  | cons x rest ih =>
    intro s
    cases x with
    | none => exact ih s
    | some i =>
      cases hp : pieces.get? i with
      | none =>
        simp only [availLoopS, hp]
        exact StorePreserved.refl s
      | some piece =>
        simp only [availLoopS, hp]
        cases hf : fitsLoopS recur avail spot i ref
            (fitsThatMatchTheConstraints sit piece) s with
        | mk s2 crashed =>
          have h2 : StorePreserved s s2 := by
            have h3 := fitsLoopS_preserved recur avail spot i ref hrec
              (fitsThatMatchTheConstraints sit piece) s
            rw [hf] at h3
            exact h3
          cases crashed with
          | true => exact h2
          | false => exact h2.trans (ih s2)

/-- One heap-model solver level preserves the heap below its entry
watermark. -/
theorem solvePuzzleStepS_preserved
    (recur : List (Option Nat) → Store → List Nat → Store × Bool)
    (avail : List (Option Nat)) (s : Store) (ref : List Nat)
    (hrec : ∀ av s' r', StorePreserved s' (recur av s' r').1) :
    StorePreserved s (solvePuzzleStepS recur avail s ref).1 := by
  cases hnext : nextOpentSpot (derefArr s ref) with
  | none =>
    simp only [solvePuzzleStepS, hnext]
    exact StorePreserved.refl s
  | some spot =>
    cases hsit : situationAtSpot (derefArr s ref) spot with
    | none =>
      simp only [solvePuzzleStepS, hnext, hsit]
      exact StorePreserved.refl s
    | some situation =>
      simp only [solvePuzzleStepS, hnext, hsit]
      exact availLoopS_preserved recur avail spot situation ref hrec avail s

/-- The whole heap-model search preserves the heap below its entry
watermark. -/
theorem solvePuzzleGoS_preserved : ∀ (fuel : Nat) (avail : List (Option Nat))
    (s : Store) (ref : List Nat),
    StorePreserved s (solvePuzzleGoS fuel avail s ref).1 := by
  intro fuel
  induction fuel with
  | zero => intro avail s ref; exact StorePreserved.refl s
  | succ fuel ih =>
    intro avail s ref
    exact solvePuzzleStepS_preserved (solvePuzzleGoS fuel) avail s ref
      (fun av s' r' => ih av s' r')

/-- C7: a call to the solver leaves its arguments unchanged.  In the heap
model every row array allocated before the call — in particular every row of
the argument arrangement — holds exactly the same cells afterwards: each
branch works on a freshly cloned arrangement (`cloneArrangementS`) and the
single mutation of the search writes into that fresh clone.  The
`availableIndexes` argument is passed and rebuilt by `map`, never written,
so it is modelled by value and unchanged by construction. -/
theorem solvePuzzle_no_mutation (avail : List (Option Nat)) (s : Store) (ref : List Nat) :
    s.length ≤ (solvePuzzleS avail s ref).1.length ∧
      (∀ addr, addr < s.length → (solvePuzzleS avail s ref).1.get? addr = s.get? addr) ∧
      ((∀ adr, adr ∈ ref → adr < s.length) →
        derefArr (solvePuzzleS avail s ref).1 ref = derefArr s ref) := by
  have h := solvePuzzleGoS_preserved (countAvailable avail) avail s ref
  refine ⟨h.1, h.2, fun href => ?_⟩
  show derefArr (solvePuzzleGoS (countAvailable avail) avail s ref).1 ref = derefArr s ref
  unfold derefArr
  apply List.map_congr_left
  intro adr hadr
  unfold derefRow
  rw [h.2 adr (href adr hadr)]

/-- Witness for C7: a one-cell board stored at address 0 with one available
piece is read back unchanged after the solver runs. -/
theorem solvePuzzle_no_mutation_witness :
    ([[none]] : Store).length ≤ (solvePuzzleS [some 3] [[none]] [0]).1.length ∧
      (∀ addr, addr < ([[none]] : Store).length →
        (solvePuzzleS [some 3] [[none]] [0]).1.get? addr = ([[none]] : Store).get? addr) ∧
      derefArr (solvePuzzleS [some 3] [[none]] [0]).1 [0] = derefArr [[none]] [0] := by
  have h := solvePuzzle_no_mutation [some 3] [[none]] [0]
  exact ⟨h.1, h.2.1, h.2.2 (by decide)⟩

set_option maxRecDepth 1000000 in
set_option maxHeartbeats 40000000 in
/-- Kernel evaluation of the solver on search node nRootx3x0 (277 call nodes). -/
theorem solveNRootx3x0 : solvePuzzleGo 14 availNRootx3x0 boardNRootx3x0 =
    some [] := by
  decide

set_option maxRecDepth 1000000 in
set_option maxHeartbeats 40000000 in
/-- Kernel evaluation of the solver on search node nRootx3x1 (1 call nodes). -/
theorem solveNRootx3x1 : solvePuzzleGo 14 availNRootx3x1 boardNRootx3x1 =
    some [] := by
  decide

set_option maxRecDepth 1000000 in
set_option maxHeartbeats 40000000 in
/-- Kernel evaluation of the solver on search node nRootx3x6 (277 call nodes). -/
theorem solveNRootx3x6 : solvePuzzleGo 14 availNRootx3x6 boardNRootx3x6 =
    some [] := by
  decide

set_option maxRecDepth 1000000 in
set_option maxHeartbeats 40000000 in
/-- Kernel evaluation of the solver on search node nRootx3x7 (383 call nodes). -/
theorem solveNRootx3x7 : solvePuzzleGo 14 availNRootx3x7 boardNRootx3x7 =
    some [] := by
  decide

set_option maxRecDepth 1000000 in
set_option maxHeartbeats 40000000 in
/-- Kernel evaluation of the solver on search node nRootx3x10 (934 call nodes). -/
theorem solveNRootx3x10 : solvePuzzleGo 14 availNRootx3x10 boardNRootx3x10 =
    some [] := by
  decide

set_option maxRecDepth 1000000 in
set_option maxHeartbeats 40000000 in
/-- Kernel evaluation of the solver on search node nRootx3x13 (957 call nodes). -/
theorem solveNRootx3x13 : solvePuzzleGo 14 availNRootx3x13 boardNRootx3x13 =
    some [solBoard1, solBoard2, solBoard3, solBoard4] := by
  decide

set_option maxRecDepth 1000000 in
set_option maxHeartbeats 40000000 in
/-- Glue evaluation of the solver on search node nRootx3 (2830 call nodes), chaining
the per-piece branch subtrees. -/
theorem solveNRootx3 : solvePuzzleGo 15 availNRootx3 boardNRootx3 =
    some [solBoard1, solBoard2, solBoard3, solBoard4] := by
  have h16 : availLoop (solvePuzzleGo 14) availNRootx3 boardNRootx3 (Position.mk 1 0) [Dot.Red]
      ([] : List (Option Nat)) = some [] := rfl
  have h15 : availLoop (solvePuzzleGo 14) availNRootx3 boardNRootx3 (Position.mk 1 0) [Dot.Red]
      [some 15] = some [] :=
    Eq.trans (availLoop_skip_step (solvePuzzleGo 14) availNRootx3 boardNRootx3 (Position.mk 1 0) [Dot.Red] 15
      [Dot.Yellow, Dot.Black, Dot.Blue] [] rfl (by decide)) h16
  have h14 : availLoop (solvePuzzleGo 14) availNRootx3 boardNRootx3 (Position.mk 1 0) [Dot.Red]
      [some 14, some 15] = some [] :=
    Eq.trans (availLoop_skip_step (solvePuzzleGo 14) availNRootx3 boardNRootx3 (Position.mk 1 0) [Dot.Red] 14
      [Dot.Blue, Dot.Blue, Dot.White] [some 15] rfl (by decide)) h15
  have h13 : availLoop (solvePuzzleGo 14) availNRootx3 boardNRootx3 (Position.mk 1 0) [Dot.Red]
      [some 13, some 14, some 15] = some [solBoard1, solBoard2, solBoard3, solBoard4] :=
    availLoop_branch_step (solvePuzzleGo 14) availNRootx3 boardNRootx3 (Position.mk 1 0) [Dot.Red] 13
      [Dot.Red, Dot.Green, Dot.Yellow] 0 [some 14, some 15]
      [solBoard1, solBoard2, solBoard3, solBoard4]
      [] rfl (by decide) solveNRootx3x13 h14
  have h12 : availLoop (solvePuzzleGo 14) availNRootx3 boardNRootx3 (Position.mk 1 0) [Dot.Red]
      [some 12, some 13, some 14, some 15] = some [solBoard1, solBoard2, solBoard3, solBoard4] :=
    Eq.trans (availLoop_skip_step (solvePuzzleGo 14) availNRootx3 boardNRootx3 (Position.mk 1 0) [Dot.Red] 12
      [Dot.Blue, Dot.Black, Dot.White] [some 13, some 14, some 15] rfl (by decide)) h13
  have h11 : availLoop (solvePuzzleGo 14) availNRootx3 boardNRootx3 (Position.mk 1 0) [Dot.Red]
      [some 11, some 12, some 13, some 14, some 15] = some [solBoard1, solBoard2, solBoard3, solBoard4] :=
    Eq.trans (availLoop_skip_step (solvePuzzleGo 14) availNRootx3 boardNRootx3 (Position.mk 1 0) [Dot.Red] 11
      [Dot.Yellow, Dot.White, Dot.Green] [some 12, some 13, some 14, some 15] rfl (by decide)) h12
  have h10 : availLoop (solvePuzzleGo 14) availNRootx3 boardNRootx3 (Position.mk 1 0) [Dot.Red]
      [some 10, some 11, some 12, some 13, some 14, some 15] = some [solBoard1, solBoard2, solBoard3, solBoard4] :=
    availLoop_branch_step (solvePuzzleGo 14) availNRootx3 boardNRootx3 (Position.mk 1 0) [Dot.Red] 10
      [Dot.Red, Dot.Green, Dot.White] 0 [some 11, some 12, some 13, some 14, some 15]
      []
      [solBoard1, solBoard2, solBoard3, solBoard4] rfl (by decide) solveNRootx3x10 h11
  have h9 : availLoop (solvePuzzleGo 14) availNRootx3 boardNRootx3 (Position.mk 1 0) [Dot.Red]
      [some 9, some 10, some 11, some 12, some 13, some 14, some 15] = some [solBoard1, solBoard2, solBoard3, solBoard4] :=
    Eq.trans (availLoop_skip_step (solvePuzzleGo 14) availNRootx3 boardNRootx3 (Position.mk 1 0) [Dot.Red] 9
      [Dot.Yellow, Dot.Green, Dot.Black] [some 10, some 11, some 12, some 13, some 14, some 15] rfl (by decide)) h10
  have h8 : availLoop (solvePuzzleGo 14) availNRootx3 boardNRootx3 (Position.mk 1 0) [Dot.Red]
      [some 8, some 9, some 10, some 11, some 12, some 13, some 14, some 15] = some [solBoard1, solBoard2, solBoard3, solBoard4] :=
    Eq.trans (availLoop_skip_step (solvePuzzleGo 14) availNRootx3 boardNRootx3 (Position.mk 1 0) [Dot.Red] 8
      [Dot.Green, Dot.Black, Dot.Black] [some 9, some 10, some 11, some 12, some 13, some 14, some 15] rfl (by decide)) h9
  have h7 : availLoop (solvePuzzleGo 14) availNRootx3 boardNRootx3 (Position.mk 1 0) [Dot.Red]
      [some 7, some 8, some 9, some 10, some 11, some 12, some 13, some 14, some 15] = some [solBoard1, solBoard2, solBoard3, solBoard4] :=
    availLoop_branch_step (solvePuzzleGo 14) availNRootx3 boardNRootx3 (Position.mk 1 0) [Dot.Red] 7
      [Dot.Red, Dot.Green, Dot.Black] 0 [some 8, some 9, some 10, some 11, some 12, some 13, some 14, some 15]
      []
      [solBoard1, solBoard2, solBoard3, solBoard4] rfl (by decide) solveNRootx3x7 h8
  have h6 : availLoop (solvePuzzleGo 14) availNRootx3 boardNRootx3 (Position.mk 1 0) [Dot.Red]
      [some 6, some 7, some 8, some 9, some 10, some 11, some 12, some 13, some 14, some 15] = some [solBoard1, solBoard2, solBoard3, solBoard4] :=
    availLoop_branch_step (solvePuzzleGo 14) availNRootx3 boardNRootx3 (Position.mk 1 0) [Dot.Red] 6
      [Dot.Red, Dot.Black, Dot.Green] 0 [some 7, some 8, some 9, some 10, some 11, some 12, some 13, some 14, some 15]
      []
      [solBoard1, solBoard2, solBoard3, solBoard4] rfl (by decide) solveNRootx3x6 h7
  have h5 : availLoop (solvePuzzleGo 14) availNRootx3 boardNRootx3 (Position.mk 1 0) [Dot.Red]
      [some 5, some 6, some 7, some 8, some 9, some 10, some 11, some 12, some 13, some 14, some 15] = some [solBoard1, solBoard2, solBoard3, solBoard4] :=
    Eq.trans (availLoop_skip_step (solvePuzzleGo 14) availNRootx3 boardNRootx3 (Position.mk 1 0) [Dot.Red] 5
      [Dot.Blue, Dot.White, Dot.White] [some 6, some 7, some 8, some 9, some 10, some 11, some 12, some 13, some 14, some 15] rfl (by decide)) h6
  have h4 : availLoop (solvePuzzleGo 14) availNRootx3 boardNRootx3 (Position.mk 1 0) [Dot.Red]
      [some 4, some 5, some 6, some 7, some 8, some 9, some 10, some 11, some 12, some 13, some 14, some 15] = some [solBoard1, solBoard2, solBoard3, solBoard4] :=
    Eq.trans (availLoop_skip_step (solvePuzzleGo 14) availNRootx3 boardNRootx3 (Position.mk 1 0) [Dot.Red] 4
      [Dot.Yellow, Dot.Green, Dot.Blue] [some 5, some 6, some 7, some 8, some 9, some 10, some 11, some 12, some 13, some 14, some 15] rfl (by decide)) h5
  have h3 : availLoop (solvePuzzleGo 14) availNRootx3 boardNRootx3 (Position.mk 1 0) [Dot.Red]
      [none, some 4, some 5, some 6, some 7, some 8, some 9, some 10, some 11, some 12, some 13, some 14, some 15] = some [solBoard1, solBoard2, solBoard3, solBoard4] :=
    Eq.trans (availLoop_none_step (solvePuzzleGo 14) availNRootx3 boardNRootx3 (Position.mk 1 0) [Dot.Red]
      [some 4, some 5, some 6, some 7, some 8, some 9, some 10, some 11, some 12, some 13, some 14, some 15]) h4
  have h2 : availLoop (solvePuzzleGo 14) availNRootx3 boardNRootx3 (Position.mk 1 0) [Dot.Red]
      [some 2, none, some 4, some 5, some 6, some 7, some 8, some 9, some 10, some 11, some 12, some 13, some 14, some 15] = some [solBoard1, solBoard2, solBoard3, solBoard4] :=
    Eq.trans (availLoop_skip_step (solvePuzzleGo 14) availNRootx3 boardNRootx3 (Position.mk 1 0) [Dot.Red] 2
      [Dot.Yellow, Dot.White, Dot.Green] [none, some 4, some 5, some 6, some 7, some 8, some 9, some 10, some 11, some 12, some 13, some 14, some 15] rfl (by decide)) h3
  have h1 : availLoop (solvePuzzleGo 14) availNRootx3 boardNRootx3 (Position.mk 1 0) [Dot.Red]
      [some 1, some 2, none, some 4, some 5, some 6, some 7, some 8, some 9, some 10, some 11, some 12, some 13, some 14, some 15] = some [solBoard1, solBoard2, solBoard3, solBoard4] :=
    availLoop_branch_step (solvePuzzleGo 14) availNRootx3 boardNRootx3 (Position.mk 1 0) [Dot.Red] 1
      [Dot.Red, Dot.White, Dot.Yellow] 0 [some 2, none, some 4, some 5, some 6, some 7, some 8, some 9, some 10, some 11, some 12, some 13, some 14, some 15]
      []
      [solBoard1, solBoard2, solBoard3, solBoard4] rfl (by decide) solveNRootx3x1 h2
  have h0 : availLoop (solvePuzzleGo 14) availNRootx3 boardNRootx3 (Position.mk 1 0) [Dot.Red]
      [some 0, some 1, some 2, none, some 4, some 5, some 6, some 7, some 8, some 9, some 10, some 11, some 12, some 13, some 14, some 15] = some [solBoard1, solBoard2, solBoard3, solBoard4] :=
    availLoop_branch_step (solvePuzzleGo 14) availNRootx3 boardNRootx3 (Position.mk 1 0) [Dot.Red] 0
      [Dot.Red, Dot.Black, Dot.Green] 0 [some 1, some 2, none, some 4, some 5, some 6, some 7, some 8, some 9, some 10, some 11, some 12, some 13, some 14, some 15]
      []
      [solBoard1, solBoard2, solBoard3, solBoard4] rfl (by decide) solveNRootx3x0 h1
  have hstep : solvePuzzleGo 15 availNRootx3 boardNRootx3 =
      availLoop (solvePuzzleGo 14) availNRootx3 boardNRootx3 (Position.mk 1 0) [Dot.Red] availNRootx3 :=
    solvePuzzleStep_eq (solvePuzzleGo 14) availNRootx3 boardNRootx3 (Position.mk 1 0) [Dot.Red] rfl rfl
  exact hstep.trans h0

set_option maxRecDepth 1000000 in
set_option maxHeartbeats 40000000 in
/-- Kernel evaluation of the solver on search node nRootx5 (13 call nodes). -/
theorem solveNRootx5 : solvePuzzleGo 15 availNRootx5 boardNRootx5 =
    some [] := by
  decide

set_option maxRecDepth 1000000 in
set_option maxHeartbeats 40000000 in
/-- Kernel evaluation of the solver on search node nRootx12x0 (277 call nodes). -/
theorem solveNRootx12x0 : solvePuzzleGo 14 availNRootx12x0 boardNRootx12x0 =
    some [] := by
  decide

set_option maxRecDepth 1000000 in
set_option maxHeartbeats 40000000 in
/-- Kernel evaluation of the solver on search node nRootx12x1 (1 call nodes). -/
theorem solveNRootx12x1 : solvePuzzleGo 14 availNRootx12x1 boardNRootx12x1 =
    some [] := by
  decide

set_option maxRecDepth 1000000 in
set_option maxHeartbeats 40000000 in
/-- Kernel evaluation of the solver on search node nRootx12x6 (277 call nodes). -/
theorem solveNRootx12x6 : solvePuzzleGo 14 availNRootx12x6 boardNRootx12x6 =
    some [] := by
  decide

set_option maxRecDepth 1000000 in
set_option maxHeartbeats 40000000 in
/-- Kernel evaluation of the solver on search node nRootx12x7 (383 call nodes). -/
theorem solveNRootx12x7 : solvePuzzleGo 14 availNRootx12x7 boardNRootx12x7 =
    some [] := by
  decide

set_option maxRecDepth 1000000 in
set_option maxHeartbeats 40000000 in
/-- Kernel evaluation of the solver on search node nRootx12x10 (934 call nodes). -/
theorem solveNRootx12x10 : solvePuzzleGo 14 availNRootx12x10 boardNRootx12x10 =
    some [] := by
  decide

set_option maxRecDepth 1000000 in
set_option maxHeartbeats 40000000 in
/-- Kernel evaluation of the solver on search node nRootx12x13 (957 call nodes). -/
theorem solveNRootx12x13 : solvePuzzleGo 14 availNRootx12x13 boardNRootx12x13 =
    some [solBoard5, solBoard6, solBoard7, solBoard8] := by
  decide

set_option maxRecDepth 1000000 in
set_option maxHeartbeats 40000000 in
/-- Glue evaluation of the solver on search node nRootx12 (2830 call nodes), chaining
the per-piece branch subtrees. -/
theorem solveNRootx12 : solvePuzzleGo 15 availNRootx12 boardNRootx12 =
    some [solBoard5, solBoard6, solBoard7, solBoard8] := by
  have h16 : availLoop (solvePuzzleGo 14) availNRootx12 boardNRootx12 (Position.mk 1 0) [Dot.Red]
      ([] : List (Option Nat)) = some [] := rfl
  have h15 : availLoop (solvePuzzleGo 14) availNRootx12 boardNRootx12 (Position.mk 1 0) [Dot.Red]
      [some 15] = some [] :=
    Eq.trans (availLoop_skip_step (solvePuzzleGo 14) availNRootx12 boardNRootx12 (Position.mk 1 0) [Dot.Red] 15
      [Dot.Yellow, Dot.Black, Dot.Blue] [] rfl (by decide)) h16
  have h14 : availLoop (solvePuzzleGo 14) availNRootx12 boardNRootx12 (Position.mk 1 0) [Dot.Red]
      [some 14, some 15] = some [] :=
    Eq.trans (availLoop_skip_step (solvePuzzleGo 14) availNRootx12 boardNRootx12 (Position.mk 1 0) [Dot.Red] 14
      [Dot.Blue, Dot.Blue, Dot.White] [some 15] rfl (by decide)) h15
  have h13 : availLoop (solvePuzzleGo 14) availNRootx12 boardNRootx12 (Position.mk 1 0) [Dot.Red]
      [some 13, some 14, some 15] = some [solBoard5, solBoard6, solBoard7, solBoard8] :=
    availLoop_branch_step (solvePuzzleGo 14) availNRootx12 boardNRootx12 (Position.mk 1 0) [Dot.Red] 13
      [Dot.Red, Dot.Green, Dot.Yellow] 0 [some 14, some 15]
      [solBoard5, solBoard6, solBoard7, solBoard8]
      [] rfl (by decide) solveNRootx12x13 h14
  have h12 : availLoop (solvePuzzleGo 14) availNRootx12 boardNRootx12 (Position.mk 1 0) [Dot.Red]
      [none, some 13, some 14, some 15] = some [solBoard5, solBoard6, solBoard7, solBoard8] :=
    Eq.trans (availLoop_none_step (solvePuzzleGo 14) availNRootx12 boardNRootx12 (Position.mk 1 0) [Dot.Red]
      [some 13, some 14, some 15]) h13
  have h11 : availLoop (solvePuzzleGo 14) availNRootx12 boardNRootx12 (Position.mk 1 0) [Dot.Red]
      [some 11, none, some 13, some 14, some 15] = some [solBoard5, solBoard6, solBoard7, solBoard8] :=
    Eq.trans (availLoop_skip_step (solvePuzzleGo 14) availNRootx12 boardNRootx12 (Position.mk 1 0) [Dot.Red] 11
      [Dot.Yellow, Dot.White, Dot.Green] [none, some 13, some 14, some 15] rfl (by decide)) h12
  have h10 : availLoop (solvePuzzleGo 14) availNRootx12 boardNRootx12 (Position.mk 1 0) [Dot.Red]
      [some 10, some 11, none, some 13, some 14, some 15] = some [solBoard5, solBoard6, solBoard7, solBoard8] :=
    availLoop_branch_step (solvePuzzleGo 14) availNRootx12 boardNRootx12 (Position.mk 1 0) [Dot.Red] 10
      [Dot.Red, Dot.Green, Dot.White] 0 [some 11, none, some 13, some 14, some 15]
      []
      [solBoard5, solBoard6, solBoard7, solBoard8] rfl (by decide) solveNRootx12x10 h11
  have h9 : availLoop (solvePuzzleGo 14) availNRootx12 boardNRootx12 (Position.mk 1 0) [Dot.Red]
      [some 9, some 10, some 11, none, some 13, some 14, some 15] = some [solBoard5, solBoard6, solBoard7, solBoard8] :=
    Eq.trans (availLoop_skip_step (solvePuzzleGo 14) availNRootx12 boardNRootx12 (Position.mk 1 0) [Dot.Red] 9
      [Dot.Yellow, Dot.Green, Dot.Black] [some 10, some 11, none, some 13, some 14, some 15] rfl (by decide)) h10
  have h8 : availLoop (solvePuzzleGo 14) availNRootx12 boardNRootx12 (Position.mk 1 0) [Dot.Red]
      [some 8, some 9, some 10, some 11, none, some 13, some 14, some 15] = some [solBoard5, solBoard6, solBoard7, solBoard8] :=
    Eq.trans (availLoop_skip_step (solvePuzzleGo 14) availNRootx12 boardNRootx12 (Position.mk 1 0) [Dot.Red] 8
      [Dot.Green, Dot.Black, Dot.Black] [some 9, some 10, some 11, none, some 13, some 14, some 15] rfl (by decide)) h9
  have h7 : availLoop (solvePuzzleGo 14) availNRootx12 boardNRootx12 (Position.mk 1 0) [Dot.Red]
      [some 7, some 8, some 9, some 10, some 11, none, some 13, some 14, some 15] = some [solBoard5, solBoard6, solBoard7, solBoard8] :=
    availLoop_branch_step (solvePuzzleGo 14) availNRootx12 boardNRootx12 (Position.mk 1 0) [Dot.Red] 7
      [Dot.Red, Dot.Green, Dot.Black] 0 [some 8, some 9, some 10, some 11, none, some 13, some 14, some 15]
      []
      [solBoard5, solBoard6, solBoard7, solBoard8] rfl (by decide) solveNRootx12x7 h8
  have h6 : availLoop (solvePuzzleGo 14) availNRootx12 boardNRootx12 (Position.mk 1 0) [Dot.Red]
      [some 6, some 7, some 8, some 9, some 10, some 11, none, some 13, some 14, some 15] = some [solBoard5, solBoard6, solBoard7, solBoard8] :=
    availLoop_branch_step (solvePuzzleGo 14) availNRootx12 boardNRootx12 (Position.mk 1 0) [Dot.Red] 6
      [Dot.Red, Dot.Black, Dot.Green] 0 [some 7, some 8, some 9, some 10, some 11, none, some 13, some 14, some 15]
      []
      [solBoard5, solBoard6, solBoard7, solBoard8] rfl (by decide) solveNRootx12x6 h7
  have h5 : availLoop (solvePuzzleGo 14) availNRootx12 boardNRootx12 (Position.mk 1 0) [Dot.Red]
      [some 5, some 6, some 7, some 8, some 9, some 10, some 11, none, some 13, some 14, some 15] = some [solBoard5, solBoard6, solBoard7, solBoard8] :=
    Eq.trans (availLoop_skip_step (solvePuzzleGo 14) availNRootx12 boardNRootx12 (Position.mk 1 0) [Dot.Red] 5
      [Dot.Blue, Dot.White, Dot.White] [some 6, some 7, some 8, some 9, some 10, some 11, none, some 13, some 14, some 15] rfl (by decide)) h6
  have h4 : availLoop (solvePuzzleGo 14) availNRootx12 boardNRootx12 (Position.mk 1 0) [Dot.Red]
      [some 4, some 5, some 6, some 7, some 8, some 9, some 10, some 11, none, some 13, some 14, some 15] = some [solBoard5, solBoard6, solBoard7, solBoard8] :=
    Eq.trans (availLoop_skip_step (solvePuzzleGo 14) availNRootx12 boardNRootx12 (Position.mk 1 0) [Dot.Red] 4
      [Dot.Yellow, Dot.Green, Dot.Blue] [some 5, some 6, some 7, some 8, some 9, some 10, some 11, none, some 13, some 14, some 15] rfl (by decide)) h5
  have h3 : availLoop (solvePuzzleGo 14) availNRootx12 boardNRootx12 (Position.mk 1 0) [Dot.Red]
      [some 3, some 4, some 5, some 6, some 7, some 8, some 9, some 10, some 11, none, some 13, some 14, some 15] = some [solBoard5, solBoard6, solBoard7, solBoard8] :=
    Eq.trans (availLoop_skip_step (solvePuzzleGo 14) availNRootx12 boardNRootx12 (Position.mk 1 0) [Dot.Red] 3
      [Dot.Blue, Dot.Black, Dot.White] [some 4, some 5, some 6, some 7, some 8, some 9, some 10, some 11, none, some 13, some 14, some 15] rfl (by decide)) h4
  have h2 : availLoop (solvePuzzleGo 14) availNRootx12 boardNRootx12 (Position.mk 1 0) [Dot.Red]
      [some 2, some 3, some 4, some 5, some 6, some 7, some 8, some 9, some 10, some 11, none, some 13, some 14, some 15] = some [solBoard5, solBoard6, solBoard7, solBoard8] :=
    Eq.trans (availLoop_skip_step (solvePuzzleGo 14) availNRootx12 boardNRootx12 (Position.mk 1 0) [Dot.Red] 2
      [Dot.Yellow, Dot.White, Dot.Green] [some 3, some 4, some 5, some 6, some 7, some 8, some 9, some 10, some 11, none, some 13, some 14, some 15] rfl (by decide)) h3
  have h1 : availLoop (solvePuzzleGo 14) availNRootx12 boardNRootx12 (Position.mk 1 0) [Dot.Red]
      [some 1, some 2, some 3, some 4, some 5, some 6, some 7, some 8, some 9, some 10, some 11, none, some 13, some 14, some 15] = some [solBoard5, solBoard6, solBoard7, solBoard8] :=
    availLoop_branch_step (solvePuzzleGo 14) availNRootx12 boardNRootx12 (Position.mk 1 0) [Dot.Red] 1
      [Dot.Red, Dot.White, Dot.Yellow] 0 [some 2, some 3, some 4, some 5, some 6, some 7, some 8, some 9, some 10, some 11, none, some 13, some 14, some 15]
      []
      [solBoard5, solBoard6, solBoard7, solBoard8] rfl (by decide) solveNRootx12x1 h2
  have h0 : availLoop (solvePuzzleGo 14) availNRootx12 boardNRootx12 (Position.mk 1 0) [Dot.Red]
      [some 0, some 1, some 2, some 3, some 4, some 5, some 6, some 7, some 8, some 9, some 10, some 11, none, some 13, some 14, some 15] = some [solBoard5, solBoard6, solBoard7, solBoard8] :=
    availLoop_branch_step (solvePuzzleGo 14) availNRootx12 boardNRootx12 (Position.mk 1 0) [Dot.Red] 0
      [Dot.Red, Dot.Black, Dot.Green] 0 [some 1, some 2, some 3, some 4, some 5, some 6, some 7, some 8, some 9, some 10, some 11, none, some 13, some 14, some 15]
      []
      [solBoard5, solBoard6, solBoard7, solBoard8] rfl (by decide) solveNRootx12x0 h1
  have hstep : solvePuzzleGo 15 availNRootx12 boardNRootx12 =
      availLoop (solvePuzzleGo 14) availNRootx12 boardNRootx12 (Position.mk 1 0) [Dot.Red] availNRootx12 :=
    solvePuzzleStep_eq (solvePuzzleGo 14) availNRootx12 boardNRootx12 (Position.mk 1 0) [Dot.Red] rfl rfl
  exact hstep.trans h0

set_option maxRecDepth 1000000 in
set_option maxHeartbeats 40000000 in
/-- Kernel evaluation of the solver on search node nRootx14x0 (573 call nodes). -/
theorem solveNRootx14x0 : solvePuzzleGo 14 availNRootx14x0 boardNRootx14x0 =
    some [] := by
  decide

set_option maxRecDepth 1000000 in
set_option maxHeartbeats 40000000 in
/-- Kernel evaluation of the solver on search node nRootx14x1x3 (974 call nodes). -/
theorem solveNRootx14x1x3 : solvePuzzleGo 13 availNRootx14x1x3 boardNRootx14x1x3 =
    some [] := by
  decide

set_option maxRecDepth 1000000 in
set_option maxHeartbeats 40000000 in
/-- Kernel evaluation of the solver on search node nRootx14x1x5 (1420 call nodes). -/
theorem solveNRootx14x1x5 : solvePuzzleGo 13 availNRootx14x1x5 boardNRootx14x1x5 =
    some [] := by
  decide

set_option maxRecDepth 1000000 in
set_option maxHeartbeats 40000000 in
/-- Kernel evaluation of the solver on search node nRootx14x1x12 (974 call nodes). -/
theorem solveNRootx14x1x12 : solvePuzzleGo 13 availNRootx14x1x12 boardNRootx14x1x12 =
    some [] := by
  decide

set_option maxRecDepth 1000000 in
set_option maxHeartbeats 40000000 in
/-- Glue evaluation of the solver on search node nRootx14x1 (3369 call nodes), chaining
the per-piece branch subtrees. -/
theorem solveNRootx14x1 : solvePuzzleGo 14 availNRootx14x1 boardNRootx14x1 =
    some [] := by
  have h16 : availLoop (solvePuzzleGo 13) availNRootx14x1 boardNRootx14x1 (Position.mk 1 1) [Dot.White, Dot.Blue]
      ([] : List (Option Nat)) = some [] := rfl
  have h15 : availLoop (solvePuzzleGo 13) availNRootx14x1 boardNRootx14x1 (Position.mk 1 1) [Dot.White, Dot.Blue]
      [some 15] = some [] :=
    Eq.trans (availLoop_skip_step (solvePuzzleGo 13) availNRootx14x1 boardNRootx14x1 (Position.mk 1 1) [Dot.White, Dot.Blue] 15
      [Dot.Yellow, Dot.Black, Dot.Blue] [] rfl (by decide)) h16
  have h14 : availLoop (solvePuzzleGo 13) availNRootx14x1 boardNRootx14x1 (Position.mk 1 1) [Dot.White, Dot.Blue]
      [none, some 15] = some [] :=
    Eq.trans (availLoop_none_step (solvePuzzleGo 13) availNRootx14x1 boardNRootx14x1 (Position.mk 1 1) [Dot.White, Dot.Blue]
      [some 15]) h15
  have h13 : availLoop (solvePuzzleGo 13) availNRootx14x1 boardNRootx14x1 (Position.mk 1 1) [Dot.White, Dot.Blue]
      [some 13, none, some 15] = some [] :=
    Eq.trans (availLoop_skip_step (solvePuzzleGo 13) availNRootx14x1 boardNRootx14x1 (Position.mk 1 1) [Dot.White, Dot.Blue] 13
      [Dot.Red, Dot.Green, Dot.Yellow] [none, some 15] rfl (by decide)) h14
  have h12 : availLoop (solvePuzzleGo 13) availNRootx14x1 boardNRootx14x1 (Position.mk 1 1) [Dot.White, Dot.Blue]
      [some 12, some 13, none, some 15] = some [] :=
    availLoop_branch_step (solvePuzzleGo 13) availNRootx14x1 boardNRootx14x1 (Position.mk 1 1) [Dot.White, Dot.Blue] 12
      [Dot.Blue, Dot.Black, Dot.White] 2 [some 13, none, some 15]
      []
      [] rfl (by decide) solveNRootx14x1x12 h13
  have h11 : availLoop (solvePuzzleGo 13) availNRootx14x1 boardNRootx14x1 (Position.mk 1 1) [Dot.White, Dot.Blue]
      [some 11, some 12, some 13, none, some 15] = some [] :=
    Eq.trans (availLoop_skip_step (solvePuzzleGo 13) availNRootx14x1 boardNRootx14x1 (Position.mk 1 1) [Dot.White, Dot.Blue] 11
      [Dot.Yellow, Dot.White, Dot.Green] [some 12, some 13, none, some 15] rfl (by decide)) h12
  have h10 : availLoop (solvePuzzleGo 13) availNRootx14x1 boardNRootx14x1 (Position.mk 1 1) [Dot.White, Dot.Blue]
      [some 10, some 11, some 12, some 13, none, some 15] = some [] :=
    Eq.trans (availLoop_skip_step (solvePuzzleGo 13) availNRootx14x1 boardNRootx14x1 (Position.mk 1 1) [Dot.White, Dot.Blue] 10
      [Dot.Red, Dot.Green, Dot.White] [some 11, some 12, some 13, none, some 15] rfl (by decide)) h11
  have h9 : availLoop (solvePuzzleGo 13) availNRootx14x1 boardNRootx14x1 (Position.mk 1 1) [Dot.White, Dot.Blue]
      [some 9, some 10, some 11, some 12, some 13, none, some 15] = some [] :=
    Eq.trans (availLoop_skip_step (solvePuzzleGo 13) availNRootx14x1 boardNRootx14x1 (Position.mk 1 1) [Dot.White, Dot.Blue] 9
      [Dot.Yellow, Dot.Green, Dot.Black] [some 10, some 11, some 12, some 13, none, some 15] rfl (by decide)) h10
  have h8 : availLoop (solvePuzzleGo 13) availNRootx14x1 boardNRootx14x1 (Position.mk 1 1) [Dot.White, Dot.Blue]
      [some 8, some 9, some 10, some 11, some 12, some 13, none, some 15] = some [] :=
    Eq.trans (availLoop_skip_step (solvePuzzleGo 13) availNRootx14x1 boardNRootx14x1 (Position.mk 1 1) [Dot.White, Dot.Blue] 8
      [Dot.Green, Dot.Black, Dot.Black] [some 9, some 10, some 11, some 12, some 13, none, some 15] rfl (by decide)) h9
  have h7 : availLoop (solvePuzzleGo 13) availNRootx14x1 boardNRootx14x1 (Position.mk 1 1) [Dot.White, Dot.Blue]
      [some 7, some 8, some 9, some 10, some 11, some 12, some 13, none, some 15] = some [] :=
    Eq.trans (availLoop_skip_step (solvePuzzleGo 13) availNRootx14x1 boardNRootx14x1 (Position.mk 1 1) [Dot.White, Dot.Blue] 7
      [Dot.Red, Dot.Green, Dot.Black] [some 8, some 9, some 10, some 11, some 12, some 13, none, some 15] rfl (by decide)) h8
  have h6 : availLoop (solvePuzzleGo 13) availNRootx14x1 boardNRootx14x1 (Position.mk 1 1) [Dot.White, Dot.Blue]
      [some 6, some 7, some 8, some 9, some 10, some 11, some 12, some 13, none, some 15] = some [] :=
    Eq.trans (availLoop_skip_step (solvePuzzleGo 13) availNRootx14x1 boardNRootx14x1 (Position.mk 1 1) [Dot.White, Dot.Blue] 6
      [Dot.Red, Dot.Black, Dot.Green] [some 7, some 8, some 9, some 10, some 11, some 12, some 13, none, some 15] rfl (by decide)) h7
  have h5 : availLoop (solvePuzzleGo 13) availNRootx14x1 boardNRootx14x1 (Position.mk 1 1) [Dot.White, Dot.Blue]
      [some 5, some 6, some 7, some 8, some 9, some 10, some 11, some 12, some 13, none, some 15] = some [] :=
    availLoop_branch_step (solvePuzzleGo 13) availNRootx14x1 boardNRootx14x1 (Position.mk 1 1) [Dot.White, Dot.Blue] 5
      [Dot.Blue, Dot.White, Dot.White] 2 [some 6, some 7, some 8, some 9, some 10, some 11, some 12, some 13, none, some 15]
      []
      [] rfl (by decide) solveNRootx14x1x5 h6
  have h4 : availLoop (solvePuzzleGo 13) availNRootx14x1 boardNRootx14x1 (Position.mk 1 1) [Dot.White, Dot.Blue]
      [some 4, some 5, some 6, some 7, some 8, some 9, some 10, some 11, some 12, some 13, none, some 15] = some [] :=
    Eq.trans (availLoop_skip_step (solvePuzzleGo 13) availNRootx14x1 boardNRootx14x1 (Position.mk 1 1) [Dot.White, Dot.Blue] 4
      [Dot.Yellow, Dot.Green, Dot.Blue] [some 5, some 6, some 7, some 8, some 9, some 10, some 11, some 12, some 13, none, some 15] rfl (by decide)) h5
  have h3 : availLoop (solvePuzzleGo 13) availNRootx14x1 boardNRootx14x1 (Position.mk 1 1) [Dot.White, Dot.Blue]
      [some 3, some 4, some 5, some 6, some 7, some 8, some 9, some 10, some 11, some 12, some 13, none, some 15] = some [] :=
    availLoop_branch_step (solvePuzzleGo 13) availNRootx14x1 boardNRootx14x1 (Position.mk 1 1) [Dot.White, Dot.Blue] 3
      [Dot.Blue, Dot.Black, Dot.White] 2 [some 4, some 5, some 6, some 7, some 8, some 9, some 10, some 11, some 12, some 13, none, some 15]
      []
      [] rfl (by decide) solveNRootx14x1x3 h4
  have h2 : availLoop (solvePuzzleGo 13) availNRootx14x1 boardNRootx14x1 (Position.mk 1 1) [Dot.White, Dot.Blue]
      [some 2, some 3, some 4, some 5, some 6, some 7, some 8, some 9, some 10, some 11, some 12, some 13, none, some 15] = some [] :=
    Eq.trans (availLoop_skip_step (solvePuzzleGo 13) availNRootx14x1 boardNRootx14x1 (Position.mk 1 1) [Dot.White, Dot.Blue] 2
      [Dot.Yellow, Dot.White, Dot.Green] [some 3, some 4, some 5, some 6, some 7, some 8, some 9, some 10, some 11, some 12, some 13, none, some 15] rfl (by decide)) h3
  have h1 : availLoop (solvePuzzleGo 13) availNRootx14x1 boardNRootx14x1 (Position.mk 1 1) [Dot.White, Dot.Blue]
      [none, some 2, some 3, some 4, some 5, some 6, some 7, some 8, some 9, some 10, some 11, some 12, some 13, none, some 15] = some [] :=
    Eq.trans (availLoop_none_step (solvePuzzleGo 13) availNRootx14x1 boardNRootx14x1 (Position.mk 1 1) [Dot.White, Dot.Blue]
      [some 2, some 3, some 4, some 5, some 6, some 7, some 8, some 9, some 10, some 11, some 12, some 13, none, some 15]) h2
  have h0 : availLoop (solvePuzzleGo 13) availNRootx14x1 boardNRootx14x1 (Position.mk 1 1) [Dot.White, Dot.Blue]
      [some 0, none, some 2, some 3, some 4, some 5, some 6, some 7, some 8, some 9, some 10, some 11, some 12, some 13, none, some 15] = some [] :=
    Eq.trans (availLoop_skip_step (solvePuzzleGo 13) availNRootx14x1 boardNRootx14x1 (Position.mk 1 1) [Dot.White, Dot.Blue] 0
      [Dot.Red, Dot.Black, Dot.Green] [none, some 2, some 3, some 4, some 5, some 6, some 7, some 8, some 9, some 10, some 11, some 12, some 13, none, some 15] rfl (by decide)) h1
  have hstep : solvePuzzleGo 14 availNRootx14x1 boardNRootx14x1 =
      availLoop (solvePuzzleGo 13) availNRootx14x1 boardNRootx14x1 (Position.mk 1 1) [Dot.White, Dot.Blue] availNRootx14x1 :=
    solvePuzzleStep_eq (solvePuzzleGo 13) availNRootx14x1 boardNRootx14x1 (Position.mk 1 1) [Dot.White, Dot.Blue] rfl rfl
  exact hstep.trans h0

set_option maxRecDepth 1000000 in
set_option maxHeartbeats 40000000 in
/-- Kernel evaluation of the solver on search node nRootx14x6 (573 call nodes). -/
theorem solveNRootx14x6 : solvePuzzleGo 14 availNRootx14x6 boardNRootx14x6 =
    some [] := by
  decide

set_option maxRecDepth 1000000 in
set_option maxHeartbeats 40000000 in
/-- Kernel evaluation of the solver on search node nRootx14x7 (855 call nodes). -/
theorem solveNRootx14x7 : solvePuzzleGo 14 availNRootx14x7 boardNRootx14x7 =
    some [] := by
  decide

set_option maxRecDepth 1000000 in
set_option maxHeartbeats 40000000 in
/-- Kernel evaluation of the solver on search node nRootx14x10 (415 call nodes). -/
theorem solveNRootx14x10 : solvePuzzleGo 14 availNRootx14x10 boardNRootx14x10 =
    some [] := by
  decide

set_option maxRecDepth 1000000 in
set_option maxHeartbeats 40000000 in
/-- Kernel evaluation of the solver on search node nRootx14x13 (120 call nodes). -/
theorem solveNRootx14x13 : solvePuzzleGo 14 availNRootx14x13 boardNRootx14x13 =
    some [] := by
  decide

set_option maxRecDepth 1000000 in
set_option maxHeartbeats 40000000 in
/-- Glue evaluation of the solver on search node nRootx14 (5906 call nodes), chaining
the per-piece branch subtrees. -/
theorem solveNRootx14 : solvePuzzleGo 15 availNRootx14 boardNRootx14 =
    some [] := by
  have h16 : availLoop (solvePuzzleGo 14) availNRootx14 boardNRootx14 (Position.mk 1 0) [Dot.Red]
      ([] : List (Option Nat)) = some [] := rfl
  have h15 : availLoop (solvePuzzleGo 14) availNRootx14 boardNRootx14 (Position.mk 1 0) [Dot.Red]
      [some 15] = some [] :=
    Eq.trans (availLoop_skip_step (solvePuzzleGo 14) availNRootx14 boardNRootx14 (Position.mk 1 0) [Dot.Red] 15
      [Dot.Yellow, Dot.Black, Dot.Blue] [] rfl (by decide)) h16
  have h14 : availLoop (solvePuzzleGo 14) availNRootx14 boardNRootx14 (Position.mk 1 0) [Dot.Red]
      [none, some 15] = some [] :=
    Eq.trans (availLoop_none_step (solvePuzzleGo 14) availNRootx14 boardNRootx14 (Position.mk 1 0) [Dot.Red]
      [some 15]) h15
  have h13 : availLoop (solvePuzzleGo 14) availNRootx14 boardNRootx14 (Position.mk 1 0) [Dot.Red]
      [some 13, none, some 15] = some [] :=
    availLoop_branch_step (solvePuzzleGo 14) availNRootx14 boardNRootx14 (Position.mk 1 0) [Dot.Red] 13
      [Dot.Red, Dot.Green, Dot.Yellow] 0 [none, some 15]
      []
      [] rfl (by decide) solveNRootx14x13 h14
  have h12 : availLoop (solvePuzzleGo 14) availNRootx14 boardNRootx14 (Position.mk 1 0) [Dot.Red]
      [some 12, some 13, none, some 15] = some [] :=
    Eq.trans (availLoop_skip_step (solvePuzzleGo 14) availNRootx14 boardNRootx14 (Position.mk 1 0) [Dot.Red] 12
      [Dot.Blue, Dot.Black, Dot.White] [some 13, none, some 15] rfl (by decide)) h13
  have h11 : availLoop (solvePuzzleGo 14) availNRootx14 boardNRootx14 (Position.mk 1 0) [Dot.Red]
      [some 11, some 12, some 13, none, some 15] = some [] :=
    Eq.trans (availLoop_skip_step (solvePuzzleGo 14) availNRootx14 boardNRootx14 (Position.mk 1 0) [Dot.Red] 11
      [Dot.Yellow, Dot.White, Dot.Green] [some 12, some 13, none, some 15] rfl (by decide)) h12
  have h10 : availLoop (solvePuzzleGo 14) availNRootx14 boardNRootx14 (Position.mk 1 0) [Dot.Red]
      [some 10, some 11, some 12, some 13, none, some 15] = some [] :=
    availLoop_branch_step (solvePuzzleGo 14) availNRootx14 boardNRootx14 (Position.mk 1 0) [Dot.Red] 10
      [Dot.Red, Dot.Green, Dot.White] 0 [some 11, some 12, some 13, none, some 15]
      []
      [] rfl (by decide) solveNRootx14x10 h11
  have h9 : availLoop (solvePuzzleGo 14) availNRootx14 boardNRootx14 (Position.mk 1 0) [Dot.Red]
      [some 9, some 10, some 11, some 12, some 13, none, some 15] = some [] :=
    Eq.trans (availLoop_skip_step (solvePuzzleGo 14) availNRootx14 boardNRootx14 (Position.mk 1 0) [Dot.Red] 9
      [Dot.Yellow, Dot.Green, Dot.Black] [some 10, some 11, some 12, some 13, none, some 15] rfl (by decide)) h10
  have h8 : availLoop (solvePuzzleGo 14) availNRootx14 boardNRootx14 (Position.mk 1 0) [Dot.Red]
      [some 8, some 9, some 10, some 11, some 12, some 13, none, some 15] = some [] :=
    Eq.trans (availLoop_skip_step (solvePuzzleGo 14) availNRootx14 boardNRootx14 (Position.mk 1 0) [Dot.Red] 8
      [Dot.Green, Dot.Black, Dot.Black] [some 9, some 10, some 11, some 12, some 13, none, some 15] rfl (by decide)) h9
  have h7 : availLoop (solvePuzzleGo 14) availNRootx14 boardNRootx14 (Position.mk 1 0) [Dot.Red]
      [some 7, some 8, some 9, some 10, some 11, some 12, some 13, none, some 15] = some [] :=
    availLoop_branch_step (solvePuzzleGo 14) availNRootx14 boardNRootx14 (Position.mk 1 0) [Dot.Red] 7
      [Dot.Red, Dot.Green, Dot.Black] 0 [some 8, some 9, some 10, some 11, some 12, some 13, none, some 15]
      []
      [] rfl (by decide) solveNRootx14x7 h8
  have h6 : availLoop (solvePuzzleGo 14) availNRootx14 boardNRootx14 (Position.mk 1 0) [Dot.Red]
      [some 6, some 7, some 8, some 9, some 10, some 11, some 12, some 13, none, some 15] = some [] :=
    availLoop_branch_step (solvePuzzleGo 14) availNRootx14 boardNRootx14 (Position.mk 1 0) [Dot.Red] 6
      [Dot.Red, Dot.Black, Dot.Green] 0 [some 7, some 8, some 9, some 10, some 11, some 12, some 13, none, some 15]
      []
      [] rfl (by decide) solveNRootx14x6 h7
  have h5 : availLoop (solvePuzzleGo 14) availNRootx14 boardNRootx14 (Position.mk 1 0) [Dot.Red]
      [some 5, some 6, some 7, some 8, some 9, some 10, some 11, some 12, some 13, none, some 15] = some [] :=
    Eq.trans (availLoop_skip_step (solvePuzzleGo 14) availNRootx14 boardNRootx14 (Position.mk 1 0) [Dot.Red] 5
      [Dot.Blue, Dot.White, Dot.White] [some 6, some 7, some 8, some 9, some 10, some 11, some 12, some 13, none, some 15] rfl (by decide)) h6
  have h4 : availLoop (solvePuzzleGo 14) availNRootx14 boardNRootx14 (Position.mk 1 0) [Dot.Red]
      [some 4, some 5, some 6, some 7, some 8, some 9, some 10, some 11, some 12, some 13, none, some 15] = some [] :=
    Eq.trans (availLoop_skip_step (solvePuzzleGo 14) availNRootx14 boardNRootx14 (Position.mk 1 0) [Dot.Red] 4
      [Dot.Yellow, Dot.Green, Dot.Blue] [some 5, some 6, some 7, some 8, some 9, some 10, some 11, some 12, some 13, none, some 15] rfl (by decide)) h5
  have h3 : availLoop (solvePuzzleGo 14) availNRootx14 boardNRootx14 (Position.mk 1 0) [Dot.Red]
      [some 3, some 4, some 5, some 6, some 7, some 8, some 9, some 10, some 11, some 12, some 13, none, some 15] = some [] :=
    Eq.trans (availLoop_skip_step (solvePuzzleGo 14) availNRootx14 boardNRootx14 (Position.mk 1 0) [Dot.Red] 3
      [Dot.Blue, Dot.Black, Dot.White] [some 4, some 5, some 6, some 7, some 8, some 9, some 10, some 11, some 12, some 13, none, some 15] rfl (by decide)) h4
  have h2 : availLoop (solvePuzzleGo 14) availNRootx14 boardNRootx14 (Position.mk 1 0) [Dot.Red]
      [some 2, some 3, some 4, some 5, some 6, some 7, some 8, some 9, some 10, some 11, some 12, some 13, none, some 15] = some [] :=
    Eq.trans (availLoop_skip_step (solvePuzzleGo 14) availNRootx14 boardNRootx14 (Position.mk 1 0) [Dot.Red] 2
      [Dot.Yellow, Dot.White, Dot.Green] [some 3, some 4, some 5, some 6, some 7, some 8, some 9, some 10, some 11, some 12, some 13, none, some 15] rfl (by decide)) h3
  have h1 : availLoop (solvePuzzleGo 14) availNRootx14 boardNRootx14 (Position.mk 1 0) [Dot.Red]
      [some 1, some 2, some 3, some 4, some 5, some 6, some 7, some 8, some 9, some 10, some 11, some 12, some 13, none, some 15] = some [] :=
    availLoop_branch_step (solvePuzzleGo 14) availNRootx14 boardNRootx14 (Position.mk 1 0) [Dot.Red] 1
      [Dot.Red, Dot.White, Dot.Yellow] 0 [some 2, some 3, some 4, some 5, some 6, some 7, some 8, some 9, some 10, some 11, some 12, some 13, none, some 15]
      []
      [] rfl (by decide) solveNRootx14x1 h2
  have h0 : availLoop (solvePuzzleGo 14) availNRootx14 boardNRootx14 (Position.mk 1 0) [Dot.Red]
      [some 0, some 1, some 2, some 3, some 4, some 5, some 6, some 7, some 8, some 9, some 10, some 11, some 12, some 13, none, some 15] = some [] :=
    availLoop_branch_step (solvePuzzleGo 14) availNRootx14 boardNRootx14 (Position.mk 1 0) [Dot.Red] 0
      [Dot.Red, Dot.Black, Dot.Green] 0 [some 1, some 2, some 3, some 4, some 5, some 6, some 7, some 8, some 9, some 10, some 11, some 12, some 13, none, some 15]
      []
      [] rfl (by decide) solveNRootx14x0 h1
  have hstep : solvePuzzleGo 15 availNRootx14 boardNRootx14 =
      availLoop (solvePuzzleGo 14) availNRootx14 boardNRootx14 (Position.mk 1 0) [Dot.Red] availNRootx14 :=
    solvePuzzleStep_eq (solvePuzzleGo 14) availNRootx14 boardNRootx14 (Position.mk 1 0) [Dot.Red] rfl rfl
  exact hstep.trans h0

set_option maxRecDepth 1000000 in
set_option maxHeartbeats 40000000 in
/-- Glue evaluation of the solver on search node nRoot (11580 call nodes), chaining
the per-piece branch subtrees. -/
theorem solveNRoot : solvePuzzleGo 16 initialAvailable emptyPuzzle =
    some [solBoard1, solBoard2, solBoard3, solBoard4, solBoard5, solBoard6, solBoard7, solBoard8] := by
  have h16 : availLoop (solvePuzzleGo 15) initialAvailable emptyPuzzle (Position.mk 0 0) [Dot.White, Dot.Blue]
      ([] : List (Option Nat)) = some [] := rfl
  have h15 : availLoop (solvePuzzleGo 15) initialAvailable emptyPuzzle (Position.mk 0 0) [Dot.White, Dot.Blue]
      [some 15] = some [] :=
    Eq.trans (availLoop_skip_step (solvePuzzleGo 15) initialAvailable emptyPuzzle (Position.mk 0 0) [Dot.White, Dot.Blue] 15
      [Dot.Yellow, Dot.Black, Dot.Blue] [] rfl (by decide)) h16
  have h14 : availLoop (solvePuzzleGo 15) initialAvailable emptyPuzzle (Position.mk 0 0) [Dot.White, Dot.Blue]
      [some 14, some 15] = some [] :=
    availLoop_branch_step (solvePuzzleGo 15) initialAvailable emptyPuzzle (Position.mk 0 0) [Dot.White, Dot.Blue] 14
      [Dot.Blue, Dot.Blue, Dot.White] 2 [some 15]
      []
      [] rfl (by decide) solveNRootx14 h15
  have h13 : availLoop (solvePuzzleGo 15) initialAvailable emptyPuzzle (Position.mk 0 0) [Dot.White, Dot.Blue]
      [some 13, some 14, some 15] = some [] :=
    Eq.trans (availLoop_skip_step (solvePuzzleGo 15) initialAvailable emptyPuzzle (Position.mk 0 0) [Dot.White, Dot.Blue] 13
      [Dot.Red, Dot.Green, Dot.Yellow] [some 14, some 15] rfl (by decide)) h14
  have h12 : availLoop (solvePuzzleGo 15) initialAvailable emptyPuzzle (Position.mk 0 0) [Dot.White, Dot.Blue]
      [some 12, some 13, some 14, some 15] = some [solBoard5, solBoard6, solBoard7, solBoard8] :=
    availLoop_branch_step (solvePuzzleGo 15) initialAvailable emptyPuzzle (Position.mk 0 0) [Dot.White, Dot.Blue] 12
      [Dot.Blue, Dot.Black, Dot.White] 2 [some 13, some 14, some 15]
      [solBoard5, solBoard6, solBoard7, solBoard8]
      [] rfl (by decide) solveNRootx12 h13
  have h11 : availLoop (solvePuzzleGo 15) initialAvailable emptyPuzzle (Position.mk 0 0) [Dot.White, Dot.Blue]
      [some 11, some 12, some 13, some 14, some 15] = some [solBoard5, solBoard6, solBoard7, solBoard8] :=
    Eq.trans (availLoop_skip_step (solvePuzzleGo 15) initialAvailable emptyPuzzle (Position.mk 0 0) [Dot.White, Dot.Blue] 11
      [Dot.Yellow, Dot.White, Dot.Green] [some 12, some 13, some 14, some 15] rfl (by decide)) h12
  have h10 : availLoop (solvePuzzleGo 15) initialAvailable emptyPuzzle (Position.mk 0 0) [Dot.White, Dot.Blue]
      [some 10, some 11, some 12, some 13, some 14, some 15] = some [solBoard5, solBoard6, solBoard7, solBoard8] :=
    Eq.trans (availLoop_skip_step (solvePuzzleGo 15) initialAvailable emptyPuzzle (Position.mk 0 0) [Dot.White, Dot.Blue] 10
      [Dot.Red, Dot.Green, Dot.White] [some 11, some 12, some 13, some 14, some 15] rfl (by decide)) h11
  have h9 : availLoop (solvePuzzleGo 15) initialAvailable emptyPuzzle (Position.mk 0 0) [Dot.White, Dot.Blue]
      [some 9, some 10, some 11, some 12, some 13, some 14, some 15] = some [solBoard5, solBoard6, solBoard7, solBoard8] :=
    Eq.trans (availLoop_skip_step (solvePuzzleGo 15) initialAvailable emptyPuzzle (Position.mk 0 0) [Dot.White, Dot.Blue] 9
      [Dot.Yellow, Dot.Green, Dot.Black] [some 10, some 11, some 12, some 13, some 14, some 15] rfl (by decide)) h10
  have h8 : availLoop (solvePuzzleGo 15) initialAvailable emptyPuzzle (Position.mk 0 0) [Dot.White, Dot.Blue]
      [some 8, some 9, some 10, some 11, some 12, some 13, some 14, some 15] = some [solBoard5, solBoard6, solBoard7, solBoard8] :=
    Eq.trans (availLoop_skip_step (solvePuzzleGo 15) initialAvailable emptyPuzzle (Position.mk 0 0) [Dot.White, Dot.Blue] 8
      [Dot.Green, Dot.Black, Dot.Black] [some 9, some 10, some 11, some 12, some 13, some 14, some 15] rfl (by decide)) h9
  have h7 : availLoop (solvePuzzleGo 15) initialAvailable emptyPuzzle (Position.mk 0 0) [Dot.White, Dot.Blue]
      [some 7, some 8, some 9, some 10, some 11, some 12, some 13, some 14, some 15] = some [solBoard5, solBoard6, solBoard7, solBoard8] :=
    Eq.trans (availLoop_skip_step (solvePuzzleGo 15) initialAvailable emptyPuzzle (Position.mk 0 0) [Dot.White, Dot.Blue] 7
      [Dot.Red, Dot.Green, Dot.Black] [some 8, some 9, some 10, some 11, some 12, some 13, some 14, some 15] rfl (by decide)) h8
  have h6 : availLoop (solvePuzzleGo 15) initialAvailable emptyPuzzle (Position.mk 0 0) [Dot.White, Dot.Blue]
      [some 6, some 7, some 8, some 9, some 10, some 11, some 12, some 13, some 14, some 15] = some [solBoard5, solBoard6, solBoard7, solBoard8] :=
    Eq.trans (availLoop_skip_step (solvePuzzleGo 15) initialAvailable emptyPuzzle (Position.mk 0 0) [Dot.White, Dot.Blue] 6
      [Dot.Red, Dot.Black, Dot.Green] [some 7, some 8, some 9, some 10, some 11, some 12, some 13, some 14, some 15] rfl (by decide)) h7
  have h5 : availLoop (solvePuzzleGo 15) initialAvailable emptyPuzzle (Position.mk 0 0) [Dot.White, Dot.Blue]
      [some 5, some 6, some 7, some 8, some 9, some 10, some 11, some 12, some 13, some 14, some 15] = some [solBoard5, solBoard6, solBoard7, solBoard8] :=
    availLoop_branch_step (solvePuzzleGo 15) initialAvailable emptyPuzzle (Position.mk 0 0) [Dot.White, Dot.Blue] 5
      [Dot.Blue, Dot.White, Dot.White] 2 [some 6, some 7, some 8, some 9, some 10, some 11, some 12, some 13, some 14, some 15]
      []
      [solBoard5, solBoard6, solBoard7, solBoard8] rfl (by decide) solveNRootx5 h6
  have h4 : availLoop (solvePuzzleGo 15) initialAvailable emptyPuzzle (Position.mk 0 0) [Dot.White, Dot.Blue]
      [some 4, some 5, some 6, some 7, some 8, some 9, some 10, some 11, some 12, some 13, some 14, some 15] = some [solBoard5, solBoard6, solBoard7, solBoard8] :=
    Eq.trans (availLoop_skip_step (solvePuzzleGo 15) initialAvailable emptyPuzzle (Position.mk 0 0) [Dot.White, Dot.Blue] 4
      [Dot.Yellow, Dot.Green, Dot.Blue] [some 5, some 6, some 7, some 8, some 9, some 10, some 11, some 12, some 13, some 14, some 15] rfl (by decide)) h5
  have h3 : availLoop (solvePuzzleGo 15) initialAvailable emptyPuzzle (Position.mk 0 0) [Dot.White, Dot.Blue]
      [some 3, some 4, some 5, some 6, some 7, some 8, some 9, some 10, some 11, some 12, some 13, some 14, some 15] = some [solBoard1, solBoard2, solBoard3, solBoard4, solBoard5, solBoard6, solBoard7, solBoard8] :=
    availLoop_branch_step (solvePuzzleGo 15) initialAvailable emptyPuzzle (Position.mk 0 0) [Dot.White, Dot.Blue] 3
      [Dot.Blue, Dot.Black, Dot.White] 2 [some 4, some 5, some 6, some 7, some 8, some 9, some 10, some 11, some 12, some 13, some 14, some 15]
      [solBoard1, solBoard2, solBoard3, solBoard4]
      [solBoard5, solBoard6, solBoard7, solBoard8] rfl (by decide) solveNRootx3 h4
  have h2 : availLoop (solvePuzzleGo 15) initialAvailable emptyPuzzle (Position.mk 0 0) [Dot.White, Dot.Blue]
      [some 2, some 3, some 4, some 5, some 6, some 7, some 8, some 9, some 10, some 11, some 12, some 13, some 14, some 15] = some [solBoard1, solBoard2, solBoard3, solBoard4, solBoard5, solBoard6, solBoard7, solBoard8] :=
    Eq.trans (availLoop_skip_step (solvePuzzleGo 15) initialAvailable emptyPuzzle (Position.mk 0 0) [Dot.White, Dot.Blue] 2
      [Dot.Yellow, Dot.White, Dot.Green] [some 3, some 4, some 5, some 6, some 7, some 8, some 9, some 10, some 11, some 12, some 13, some 14, some 15] rfl (by decide)) h3
  have h1 : availLoop (solvePuzzleGo 15) initialAvailable emptyPuzzle (Position.mk 0 0) [Dot.White, Dot.Blue]
      [some 1, some 2, some 3, some 4, some 5, some 6, some 7, some 8, some 9, some 10, some 11, some 12, some 13, some 14, some 15] = some [solBoard1, solBoard2, solBoard3, solBoard4, solBoard5, solBoard6, solBoard7, solBoard8] :=
    Eq.trans (availLoop_skip_step (solvePuzzleGo 15) initialAvailable emptyPuzzle (Position.mk 0 0) [Dot.White, Dot.Blue] 1
      [Dot.Red, Dot.White, Dot.Yellow] [some 2, some 3, some 4, some 5, some 6, some 7, some 8, some 9, some 10, some 11, some 12, some 13, some 14, some 15] rfl (by decide)) h2
  have h0 : availLoop (solvePuzzleGo 15) initialAvailable emptyPuzzle (Position.mk 0 0) [Dot.White, Dot.Blue]
      [some 0, some 1, some 2, some 3, some 4, some 5, some 6, some 7, some 8, some 9, some 10, some 11, some 12, some 13, some 14, some 15] = some [solBoard1, solBoard2, solBoard3, solBoard4, solBoard5, solBoard6, solBoard7, solBoard8] :=
    Eq.trans (availLoop_skip_step (solvePuzzleGo 15) initialAvailable emptyPuzzle (Position.mk 0 0) [Dot.White, Dot.Blue] 0
      [Dot.Red, Dot.Black, Dot.Green] [some 1, some 2, some 3, some 4, some 5, some 6, some 7, some 8, some 9, some 10, some 11, some 12, some 13, some 14, some 15] rfl (by decide)) h1
  have hstep : solvePuzzleGo 16 initialAvailable emptyPuzzle =
      availLoop (solvePuzzleGo 15) initialAvailable emptyPuzzle (Position.mk 0 0) [Dot.White, Dot.Blue] initialAvailable :=
    solvePuzzleStep_eq (solvePuzzleGo 15) initialAvailable emptyPuzzle (Position.mk 0 0) [Dot.White, Dot.Blue] rfl rfl
  exact hstep.trans h0

/-- C1: started from the fully empty 4-row board with all 16 piece indexes
available, the solver emits exactly the eight complete arrangements
`solBoard1`–`solBoard8`, and every one of them passes the independent
full-board checker `fullVerifier`: every touching edge pair — each
piece-to-piece adjacency and each piece-to-board-border adjacency, including
the bottom edges of all four upward cells of the last row against
`bottomSide[0..3]` — carries the same color on both sides.  (The solver
itself never checks the bottom edges of the upward cells `(3,0)`, `(3,2)`
and `(3,4)`; the claim nevertheless holds, because every arrangement that
survives the constraints the solver does check happens to satisfy the three
unchecked border edges as well.) -/
theorem solvePuzzle_emitted_edges_all_match :
    solvePuzzle initialAvailable emptyPuzzle =
      some [solBoard1, solBoard2, solBoard3, solBoard4,
        solBoard5, solBoard6, solBoard7, solBoard8] ∧
      ([solBoard1, solBoard2, solBoard3, solBoard4,
        solBoard5, solBoard6, solBoard7, solBoard8].all fullVerifier) = true :=
  ⟨solveNRoot, by decide⟩
